import Mathlib

/-!
# Vookoo `vku/pipeline.hpp`: descriptor-pool sizing and pipeline configuration builder

A shallow embedding of `include/vku/pipeline.hpp`.

Conventions of the embedding.

* Vulkan handles (`VkDevice`, `VkPipeline`, ...) are natural numbers, `VK_NULL_HANDLE = 0`.
* Vulkan enumerations and flag words are natural numbers carrying the numeric values of
  `vulkan_core.h`; a `uint32_t` argument is a natural number that the caller has already
  typed as `uint32_t`.
* `std::vector<T>` is `List T`, `push_back` appends at the end, `size()` is `List.length`
  and the cast `(uint32_t)v.size()` is `v.length % 2 ^ 32`.
* `T x = {};` is the all-zero value of the structure, written `{}` here as well: every
  structure field has the default `0`, `[]` or `""`.
* A pointer field that the header only ever leaves null is kept as a raw address
  (`0` is `NULL`).  A pointer field that the header assigns is represented by the data it
  points to at the moment the native function is entered (`pPoolSizes`, `pBindings`,
  `pStages`, `pVertexInputState`, ...).  Inside the builder two stored structures point
  back into the builder itself (`colorBlendState.pAttachments`,
  `dynamicState.pDynamicStates`); there the field names the member pointed
  to and is resolved when the request is assembled.
* The Vulkan driver is a parameter: a function from the native call that is issued to the
  return code and the value written through the output pointer.  Every creation operation
  returns the accumulator after the call, the list of native calls it issued and either the
  handle or the thrown `error`.
-/

namespace vku

/-! ## Vulkan scalar types and constants (values of `vulkan_core.h`) -/

abbrev VkResult := Int
abbrev VkBool32 := Nat
abbrev VkFlags := Nat
abbrev VkStructureType := Nat
abbrev VkDescriptorType := Nat
abbrev VkFormat := Nat
abbrev VkVertexInputRate := Nat
abbrev VkShaderStageFlags := Nat
abbrev VkShaderStageFlagBits := Nat
abbrev VkPrimitiveTopology := Nat
abbrev VkDynamicState := Nat
abbrev VkDevice := Nat
abbrev VkDescriptorPool := Nat
abbrev VkDescriptorSetLayout := Nat
abbrev VkPipelineLayout := Nat
abbrev VkPipelineCache := Nat
abbrev VkPipeline := Nat
abbrev VkRenderPass := Nat
abbrev VkShaderModule := Nat

def VK_SUCCESS : VkResult := 0
def VK_NULL_HANDLE : Nat := 0
def VK_FALSE : VkBool32 := 0
def VK_TRUE : VkBool32 := 1

def VK_STRUCTURE_TYPE_PIPELINE_CACHE_CREATE_INFO : VkStructureType := 17
def VK_STRUCTURE_TYPE_PIPELINE_SHADER_STAGE_CREATE_INFO : VkStructureType := 18
def VK_STRUCTURE_TYPE_PIPELINE_VERTEX_INPUT_STATE_CREATE_INFO : VkStructureType := 19
def VK_STRUCTURE_TYPE_PIPELINE_INPUT_ASSEMBLY_STATE_CREATE_INFO : VkStructureType := 20
def VK_STRUCTURE_TYPE_PIPELINE_VIEWPORT_STATE_CREATE_INFO : VkStructureType := 22
def VK_STRUCTURE_TYPE_PIPELINE_RASTERIZATION_STATE_CREATE_INFO : VkStructureType := 23
def VK_STRUCTURE_TYPE_PIPELINE_MULTISAMPLE_STATE_CREATE_INFO : VkStructureType := 24
def VK_STRUCTURE_TYPE_PIPELINE_DEPTH_STENCIL_STATE_CREATE_INFO : VkStructureType := 25
def VK_STRUCTURE_TYPE_PIPELINE_COLOR_BLEND_STATE_CREATE_INFO : VkStructureType := 26
def VK_STRUCTURE_TYPE_PIPELINE_DYNAMIC_STATE_CREATE_INFO : VkStructureType := 27
def VK_STRUCTURE_TYPE_GRAPHICS_PIPELINE_CREATE_INFO : VkStructureType := 28
def VK_STRUCTURE_TYPE_PIPELINE_LAYOUT_CREATE_INFO : VkStructureType := 30
def VK_STRUCTURE_TYPE_DESCRIPTOR_SET_LAYOUT_CREATE_INFO : VkStructureType := 32
def VK_STRUCTURE_TYPE_DESCRIPTOR_POOL_CREATE_INFO : VkStructureType := 33

def VK_DESCRIPTOR_TYPE_SAMPLER : VkDescriptorType := 0
def VK_DESCRIPTOR_TYPE_COMBINED_IMAGE_SAMPLER : VkDescriptorType := 1
def VK_DESCRIPTOR_TYPE_UNIFORM_BUFFER : VkDescriptorType := 6

def VK_VERTEX_INPUT_RATE_VERTEX : VkVertexInputRate := 0
def VK_VERTEX_INPUT_RATE_INSTANCE : VkVertexInputRate := 1

def VK_SHADER_STAGE_VERTEX_BIT : VkShaderStageFlagBits := 1
def VK_SHADER_STAGE_FRAGMENT_BIT : VkShaderStageFlagBits := 16

def VK_PRIMITIVE_TOPOLOGY_POINT_LIST : VkPrimitiveTopology := 0
def VK_PRIMITIVE_TOPOLOGY_LINE_LIST : VkPrimitiveTopology := 1
def VK_PRIMITIVE_TOPOLOGY_TRIANGLE_LIST : VkPrimitiveTopology := 3

def VK_POLYGON_MODE_FILL : Nat := 0
def VK_CULL_MODE_NONE : VkFlags := 0
def VK_FRONT_FACE_COUNTER_CLOCKWISE : Nat := 0
def VK_COMPARE_OP_LESS_OR_EQUAL : Nat := 3
def VK_COMPARE_OP_ALWAYS : Nat := 7
def VK_STENCIL_OP_KEEP : Nat := 0
def VK_SAMPLE_COUNT_1_BIT : Nat := 1
def VK_DYNAMIC_STATE_VIEWPORT : VkDynamicState := 0
def VK_DYNAMIC_STATE_SCISSOR : VkDynamicState := 1

/-- The bit pattern of the single-precision constant `1.0f`; `float` fields are kept as
their IEEE-754 bit patterns, so that `0` is `0.0f`. -/
def FLOAT_ONE : Nat := 0x3F800000

/-- The cast `(uint32_t)n` of a `size_t`. -/
def toUint32 (n : Nat) : Nat := n % 2 ^ 32

/-! ## The exception type and the native layer -/

/-- Modelled from the spec: the class `vku::error` lives in `vku/resource.hpp`, which is
not part of the sources at hand.  The spec describes it as
`ResourceCreationError { nativeCode, sourceLocation }`; the header constructs it as
`error(err, __FILE__, __LINE__)`. -/
structure error where
  code : VkResult
  file : String
  line : Nat
  deriving DecidableEq, Repr

/-- The expansion of `__FILE__` inside the header. -/
def thisFile : String := "vku/pipeline.hpp"

/-! ## Vulkan structures used by the header -/

structure VkDescriptorPoolSize where
  type : VkDescriptorType := 0
  descriptorCount : Nat := 0
  deriving DecidableEq, Repr

structure VkDescriptorPoolCreateInfo where
  sType : VkStructureType := 0
  pNext : Nat := 0
  flags : VkFlags := 0
  maxSets : Nat := 0
  poolSizeCount : Nat := 0
  pPoolSizes : List VkDescriptorPoolSize := []
  deriving DecidableEq, Repr

structure VkVertexInputBindingDescription where
  binding : Nat := 0
  stride : Nat := 0
  inputRate : VkVertexInputRate := 0
  deriving DecidableEq, Repr

structure VkVertexInputAttributeDescription where
  location : Nat := 0
  binding : Nat := 0
  format : VkFormat := 0
  offset : Nat := 0
  deriving DecidableEq, Repr

structure VkDescriptorSetLayoutBinding where
  binding : Nat := 0
  descriptorType : VkDescriptorType := 0
  descriptorCount : Nat := 0
  stageFlags : VkShaderStageFlags := 0
  pImmutableSamplers : Nat := 0
  deriving DecidableEq, Repr

structure VkDescriptorSetLayoutCreateInfo where
  sType : VkStructureType := 0
  pNext : Nat := 0
  flags : VkFlags := 0
  bindingCount : Nat := 0
  pBindings : List VkDescriptorSetLayoutBinding := []
  deriving DecidableEq, Repr

structure VkPipelineLayoutCreateInfo where
  sType : VkStructureType := 0
  pNext : Nat := 0
  flags : VkFlags := 0
  setLayoutCount : Nat := 0
  pSetLayouts : List VkDescriptorSetLayout := []
  pushConstantRangeCount : Nat := 0
  pPushConstantRanges : Nat := 0
  deriving DecidableEq, Repr

structure VkPipelineShaderStageCreateInfo where
  sType : VkStructureType := 0
  pNext : Nat := 0
  flags : VkFlags := 0
  stage : VkShaderStageFlagBits := 0
  module : VkShaderModule := 0
  pName : String := ""
  pSpecializationInfo : Nat := 0
  deriving DecidableEq, Repr

structure VkPipelineVertexInputStateCreateInfo where
  sType : VkStructureType := 0
  pNext : Nat := 0
  flags : VkFlags := 0
  vertexBindingDescriptionCount : Nat := 0
  pVertexBindingDescriptions : List VkVertexInputBindingDescription := []
  vertexAttributeDescriptionCount : Nat := 0
  pVertexAttributeDescriptions : List VkVertexInputAttributeDescription := []
  deriving DecidableEq, Repr

structure VkPipelineInputAssemblyStateCreateInfo where
  sType : VkStructureType := 0
  pNext : Nat := 0
  flags : VkFlags := 0
  topology : VkPrimitiveTopology := 0
  primitiveRestartEnable : VkBool32 := 0
  deriving DecidableEq, Repr

structure VkPipelineRasterizationStateCreateInfo where
  sType : VkStructureType := 0
  pNext : Nat := 0
  flags : VkFlags := 0
  depthClampEnable : VkBool32 := 0
  rasterizerDiscardEnable : VkBool32 := 0
  polygonMode : Nat := 0
  cullMode : VkFlags := 0
  frontFace : Nat := 0
  depthBiasEnable : VkBool32 := 0
  depthBiasConstantFactor : Nat := 0
  depthBiasClamp : Nat := 0
  depthBiasSlopeFactor : Nat := 0
  lineWidth : Nat := 0
  deriving DecidableEq, Repr

structure VkPipelineColorBlendAttachmentState where
  blendEnable : VkBool32 := 0
  srcColorBlendFactor : Nat := 0
  dstColorBlendFactor : Nat := 0
  colorBlendOp : Nat := 0
  srcAlphaBlendFactor : Nat := 0
  dstAlphaBlendFactor : Nat := 0
  alphaBlendOp : Nat := 0
  colorWriteMask : VkFlags := 0
  deriving DecidableEq, Repr

/-- `VkPipelineColorBlendStateCreateInfo`; `P` is the representation of the pointer
`pAttachments` (an `AttachmentsPtr` while stored in the builder, the attachment array
once presented to the driver). -/
structure VkPipelineColorBlendStateCreateInfo (P : Type) where
  sType : VkStructureType := 0
  pNext : Nat := 0
  flags : VkFlags := 0
  logicOpEnable : VkBool32 := 0
  logicOp : Nat := 0
  attachmentCount : Nat := 0
  pAttachments : P
  blendConstants : List Nat := [0, 0, 0, 0]
  deriving DecidableEq, Repr

structure VkPipelineViewportStateCreateInfo where
  sType : VkStructureType := 0
  pNext : Nat := 0
  flags : VkFlags := 0
  viewportCount : Nat := 0
  pViewports : Nat := 0
  scissorCount : Nat := 0
  pScissors : Nat := 0
  deriving DecidableEq, Repr

/-- `VkPipelineDynamicStateCreateInfo`; `P` is the representation of the pointer
`pDynamicStates`. -/
structure VkPipelineDynamicStateCreateInfo (P : Type) where
  sType : VkStructureType := 0
  pNext : Nat := 0
  flags : VkFlags := 0
  dynamicStateCount : Nat := 0
  pDynamicStates : P
  deriving DecidableEq, Repr

structure VkStencilOpState where
  failOp : Nat := 0
  passOp : Nat := 0
  depthFailOp : Nat := 0
  compareOp : Nat := 0
  compareMask : Nat := 0
  writeMask : Nat := 0
  reference : Nat := 0
  deriving DecidableEq, Repr

structure VkPipelineDepthStencilStateCreateInfo where
  sType : VkStructureType := 0
  pNext : Nat := 0
  flags : VkFlags := 0
  depthTestEnable : VkBool32 := 0
  depthWriteEnable : VkBool32 := 0
  depthCompareOp : Nat := 0
  depthBoundsTestEnable : VkBool32 := 0
  stencilTestEnable : VkBool32 := 0
  front : VkStencilOpState := {}
  back : VkStencilOpState := {}
  minDepthBounds : Nat := 0
  maxDepthBounds : Nat := 0
  deriving DecidableEq, Repr

structure VkPipelineMultisampleStateCreateInfo where
  sType : VkStructureType := 0
  pNext : Nat := 0
  flags : VkFlags := 0
  rasterizationSamples : Nat := 0
  sampleShadingEnable : VkBool32 := 0
  minSampleShading : Nat := 0
  pSampleMask : Nat := 0
  alphaToCoverageEnable : VkBool32 := 0
  alphaToOneEnable : VkBool32 := 0
  deriving DecidableEq, Repr

/-- `VkGraphicsPipelineCreateInfo` as the driver reads it: every state pointer the header
assigns is replaced by the structure it points to when `vkCreateGraphicsPipelines` is
entered. -/
structure VkGraphicsPipelineCreateInfo where
  sType : VkStructureType := 0
  pNext : Nat := 0
  flags : VkFlags := 0
  stageCount : Nat := 0
  pStages : List VkPipelineShaderStageCreateInfo := []
  pVertexInputState : VkPipelineVertexInputStateCreateInfo := {}
  pInputAssemblyState : VkPipelineInputAssemblyStateCreateInfo := {}
  pTessellationState : Nat := 0
  pViewportState : VkPipelineViewportStateCreateInfo := {}
  pRasterizationState : VkPipelineRasterizationStateCreateInfo := {}
  pMultisampleState : VkPipelineMultisampleStateCreateInfo := {}
  pDepthStencilState : VkPipelineDepthStencilStateCreateInfo := {}
  pColorBlendState :
    VkPipelineColorBlendStateCreateInfo (List VkPipelineColorBlendAttachmentState) :=
    { pAttachments := [] }
  pDynamicState : VkPipelineDynamicStateCreateInfo (List VkDynamicState) :=
    { pDynamicStates := [] }
  layout : VkPipelineLayout := 0
  renderPass : VkRenderPass := 0
  subpass : Nat := 0
  basePipelineHandle : VkPipeline := 0
  basePipelineIndex : Int := 0
  deriving DecidableEq, Repr

structure VkPipelineCacheCreateInfo where
  sType : VkStructureType := 0
  pNext : Nat := 0
  flags : VkFlags := 0
  initialDataSize : Nat := 0
  pInitialData : Nat := 0
  deriving DecidableEq, Repr

/-- A call into the Vulkan driver, with the arguments as the driver reads them.  The last
pointer argument of the C functions (the output location) is not listed: it is where the
reply is written. -/
inductive NativeCall where
  | vkCreateDescriptorPool (device : VkDevice) (pCreateInfo : VkDescriptorPoolCreateInfo)
      (pAllocator : Nat)
  | vkCreateDescriptorSetLayout (device : VkDevice)
      (pCreateInfo : VkDescriptorSetLayoutCreateInfo) (pAllocator : Nat)
  | vkCreateGraphicsPipelines (device : VkDevice) (pipelineCache : VkPipelineCache)
      (createInfoCount : Nat) (pCreateInfos : List VkGraphicsPipelineCreateInfo)
      (pAllocator : Nat)
  | vkCreatePipelineLayout (device : VkDevice) (pCreateInfo : VkPipelineLayoutCreateInfo)
      (pAllocator : Nat)
  | vkCreatePipelineCache (device : VkDevice) (pCreateInfo : VkPipelineCacheCreateInfo)
      (pAllocator : Nat)
  deriving DecidableEq, Repr

/-- A call of one of the `void` destroy functions of the driver. -/
inductive DestroyCall where
  | vkDestroyDescriptorPool (device : VkDevice) (descriptorPool : VkDescriptorPool)
      (pAllocator : Nat)
  | vkDestroyPipelineCache (device : VkDevice) (pipelineCache : VkPipelineCache)
      (pAllocator : Nat)
  | vkDestroyPipelineLayout (device : VkDevice) (pipelineLayout : VkPipelineLayout)
      (pAllocator : Nat)
  | vkDestroyPipeline (device : VkDevice) (pipeline : VkPipeline) (pAllocator : Nat)
  deriving DecidableEq, Repr

/-- What the driver answers: the `VkResult` and, when the driver stored one, the handle
written through the output pointer (`none`: the output location was left untouched). -/
structure NativeReply where
  err : VkResult
  written : Option Nat
  deriving DecidableEq, Repr

/-- The Vulkan driver, a collaborator outside the header. -/
abbrev Native := NativeCall → NativeReply

/-- What a creation operation leaves behind: the accumulator after the call, the native
calls issued (in order) and the returned handle or the thrown exception. -/
structure Outcome (σ : Type) where
  self : σ
  calls : List NativeCall
  result : Except error Nat

/-- The tail shared by the four creation functions:
`T result = VK_NULL_HANDLE; VkResult err = vkCreate...(..., &result);`
`if (err) throw error(err, __FILE__, __LINE__); return result;`. -/
def finish {σ : Type} (native : Native) (self : σ) (call : NativeCall) (line : Nat) :
    Outcome σ :=
  let result := VK_NULL_HANDLE
  let reply := native call
  let result := reply.written.getD result
  let err := reply.err
  if err ≠ 0 then
    { self := self, calls := [call], result := Except.error ⟨err, thisFile, line⟩ }
  else
    { self := self, calls := [call], result := Except.ok result }

/-! ## `class descriptorPoolHelper` -/

structure descriptorPoolHelper where
  typeCounts_ : List VkDescriptorPoolSize := []
  info_ : VkDescriptorPoolCreateInfo := {}
  deriving DecidableEq, Repr

namespace descriptorPoolHelper

/-- The constructor `descriptorPoolHelper(uint32_t maxSets)`. -/
def new (maxSets : Nat) : descriptorPoolHelper :=
  { typeCounts_ := []
    info_ :=
      { sType := VK_STRUCTURE_TYPE_DESCRIPTOR_POOL_CREATE_INFO
        poolSizeCount := 0
        pPoolSizes := []
        maxSets := maxSets } }

def descriptors (self : descriptorPoolHelper) (type : VkDescriptorType)
    (descriptorCount : Nat) : descriptorPoolHelper :=
  let dps : VkDescriptorPoolSize := {}
  let dps := { dps with type := type }
  let dps := { dps with descriptorCount := descriptorCount }
  { self with typeCounts_ := self.typeCounts_ ++ [dps] }

def samplers (self : descriptorPoolHelper) (descriptorCount : Nat) : descriptorPoolHelper :=
  self.descriptors VK_DESCRIPTOR_TYPE_SAMPLER descriptorCount

def combinedImageSamplers (self : descriptorPoolHelper) (descriptorCount : Nat) :
    descriptorPoolHelper :=
  self.descriptors VK_DESCRIPTOR_TYPE_COMBINED_IMAGE_SAMPLER descriptorCount

def uniformBuffers (self : descriptorPoolHelper) (descriptorCount : Nat) :
    descriptorPoolHelper :=
  self.descriptors VK_DESCRIPTOR_TYPE_UNIFORM_BUFFER descriptorCount

/-- The `VkDescriptorPoolCreateInfo` filled in by `createDescriptorPool`. -/
def descriptorPoolInfo (self : descriptorPoolHelper) : VkDescriptorPoolCreateInfo :=
  let info : VkDescriptorPoolCreateInfo := {}
  let info := { info with sType := VK_STRUCTURE_TYPE_DESCRIPTOR_POOL_CREATE_INFO }
  let info := { info with pNext := 0 }
  let info := { info with poolSizeCount := toUint32 self.typeCounts_.length }
  let info := { info with pPoolSizes := self.typeCounts_ }
  let info := { info with maxSets := (toUint32 self.typeCounts_.length * 2) % 2 ^ 32 }
  info

/-- The member `createDescriptorPool(const vku::device &dev) const`; `dev` is the
`VkDevice` the `vku::device` converts to. -/
def createDescriptorPool (native : Native) (self : descriptorPoolHelper) (dev : VkDevice) :
    Outcome descriptorPoolHelper :=
  finish native self (NativeCall.vkCreateDescriptorPool dev self.descriptorPoolInfo 0) 59

end descriptorPoolHelper

/-! ## `class pipelineCreateHelper` -/

/-- Modelled from the spec: the base class `vku::resource<T, Derived>` of
`vku/resource.hpp`, which is not part of the sources at hand.  The spec describes it as
`OwnedHandle<T> { handle, device, owns }`; `get()` returns the handle. -/
structure resource where
  handle : Nat := 0
  device : VkDevice := 0
  owns : Bool := false
  deriving DecidableEq, Repr

def resource.get (self : resource) : Nat := self.handle

/-- The class `vku::shaderModule`, a `resource` over `VkShaderModule`. -/
abbrev shaderModule := resource

/-- The values taken by `colorBlendState.pAttachments` inside the builder. -/
inductive AttachmentsPtr where
  | null
  | blendAttachmentState
  deriving DecidableEq, Repr

/-- The values taken by `dynamicState.pDynamicStates` inside the builder. -/
inductive DynamicStatesPtr where
  | null
  | dynamicStateEnables_data
  deriving DecidableEq, Repr

/-- The data members of `pipelineCreateHelper`.  `blendAttachmentState` is the array
`VkPipelineColorBlendAttachmentState blendAttachmentState[1]`; the field holds its only
element, `blendAttachmentState[0]`. -/
structure pipelineCreateHelper where
  bindingDescriptions : List VkVertexInputBindingDescription := []
  attributeDescriptions : List VkVertexInputAttributeDescription := []
  layoutBindings_ : List VkDescriptorSetLayoutBinding := []
  shaderStages_ : List VkPipelineShaderStageCreateInfo := []
  dynamicStateEnables : List VkDynamicState := []
  inputAssemblyState : VkPipelineInputAssemblyStateCreateInfo := {}
  rasterizationState : VkPipelineRasterizationStateCreateInfo := {}
  colorBlendState : VkPipelineColorBlendStateCreateInfo AttachmentsPtr :=
    { pAttachments := AttachmentsPtr.null }
  blendAttachmentState : VkPipelineColorBlendAttachmentState := {}
  viewportState : VkPipelineViewportStateCreateInfo := {}
  dynamicState : VkPipelineDynamicStateCreateInfo DynamicStatesPtr :=
    { pDynamicStates := DynamicStatesPtr.null }
  depthStencilState : VkPipelineDepthStencilStateCreateInfo := {}
  multisampleState : VkPipelineMultisampleStateCreateInfo := {}
  deriving DecidableEq, Repr

namespace pipelineCreateHelper

/-- The constructor `pipelineCreateHelper()`: the member initialisers `= {}` followed by
the assignments of the constructor body, in source order. -/
def new : pipelineCreateHelper :=
  let self : pipelineCreateHelper := {}
  let self := { self with inputAssemblyState := { self.inputAssemblyState with
    sType := VK_STRUCTURE_TYPE_PIPELINE_INPUT_ASSEMBLY_STATE_CREATE_INFO } }
  let self := { self with inputAssemblyState := { self.inputAssemblyState with
    topology := VK_PRIMITIVE_TOPOLOGY_TRIANGLE_LIST } }
  let self := { self with rasterizationState := { self.rasterizationState with
    sType := VK_STRUCTURE_TYPE_PIPELINE_RASTERIZATION_STATE_CREATE_INFO
    polygonMode := VK_POLYGON_MODE_FILL
    cullMode := VK_CULL_MODE_NONE
    frontFace := VK_FRONT_FACE_COUNTER_CLOCKWISE
    depthClampEnable := VK_FALSE
    rasterizerDiscardEnable := VK_FALSE
    depthBiasEnable := VK_FALSE
    lineWidth := FLOAT_ONE } }
  let self := { self with colorBlendState := { self.colorBlendState with
    sType := VK_STRUCTURE_TYPE_PIPELINE_COLOR_BLEND_STATE_CREATE_INFO } }
  let self := { self with viewportState := { self.viewportState with
    sType := VK_STRUCTURE_TYPE_PIPELINE_VIEWPORT_STATE_CREATE_INFO
    viewportCount := 1
    scissorCount := 1 } }
  let self := { self with dynamicState := { self.dynamicState with
    sType := VK_STRUCTURE_TYPE_PIPELINE_DYNAMIC_STATE_CREATE_INFO } }
  let self := { self with depthStencilState := { self.depthStencilState with
    sType := VK_STRUCTURE_TYPE_PIPELINE_DEPTH_STENCIL_STATE_CREATE_INFO
    depthTestEnable := VK_TRUE
    depthWriteEnable := VK_TRUE
    depthCompareOp := VK_COMPARE_OP_LESS_OR_EQUAL
    depthBoundsTestEnable := VK_FALSE } }
  let self := { self with depthStencilState := { self.depthStencilState with
    back := { self.depthStencilState.back with
      failOp := VK_STENCIL_OP_KEEP
      passOp := VK_STENCIL_OP_KEEP
      compareOp := VK_COMPARE_OP_ALWAYS } } }
  let self := { self with depthStencilState := { self.depthStencilState with
    stencilTestEnable := VK_FALSE } }
  let self := { self with depthStencilState := { self.depthStencilState with
    front := self.depthStencilState.back } }
  let self := { self with multisampleState := { self.multisampleState with
    sType := VK_STRUCTURE_TYPE_PIPELINE_MULTISAMPLE_STATE_CREATE_INFO
    pSampleMask := 0
    rasterizationSamples := VK_SAMPLE_COUNT_1_BIT } }
  self

def attrib (self : pipelineCreateHelper) (location binding : Nat) (format : VkFormat)
    (offset : Nat) : pipelineCreateHelper :=
  let desc : VkVertexInputAttributeDescription := {}
  let desc := { desc with location := location }
  let desc := { desc with binding := binding }
  let desc := { desc with format := format }
  let desc := { desc with offset := offset }
  { self with attributeDescriptions := self.attributeDescriptions ++ [desc] }

/-- The source declares `inputRate` with the default `VK_VERTEX_INPUT_RATE_VERTEX`; a
call that omits it passes that value. -/
def binding (self : pipelineCreateHelper) (binding stride : Nat)
    (inputRate : VkVertexInputRate) : pipelineCreateHelper :=
  let desc : VkVertexInputBindingDescription := {}
  let desc := { desc with binding := binding }
  let desc := { desc with stride := stride }
  let desc := { desc with inputRate := inputRate }
  { self with bindingDescriptions := self.bindingDescriptions ++ [desc] }

def layoutBinding (self : pipelineCreateHelper) (descriptorType : VkDescriptorType)
    (stageFlags : VkShaderStageFlags) (binding : Nat) : pipelineCreateHelper :=
  let layoutBinding : VkDescriptorSetLayoutBinding := {}
  let layoutBinding := { layoutBinding with binding := binding }
  let layoutBinding := { layoutBinding with descriptorType := descriptorType }
  let layoutBinding := { layoutBinding with descriptorCount := 1 }
  let layoutBinding := { layoutBinding with stageFlags := stageFlags }
  let layoutBinding := { layoutBinding with pImmutableSamplers := 0 }
  { self with layoutBindings_ := self.layoutBindings_ ++ [layoutBinding] }

def uniformBuffer (self : pipelineCreateHelper) (stageFlags : VkShaderStageFlags)
    (binding : Nat) : pipelineCreateHelper :=
  self.layoutBinding VK_DESCRIPTOR_TYPE_UNIFORM_BUFFER stageFlags binding

def combinedImageSampler (self : pipelineCreateHelper) (stageFlags : VkShaderStageFlags)
    (binding : Nat) : pipelineCreateHelper :=
  self.layoutBinding VK_DESCRIPTOR_TYPE_COMBINED_IMAGE_SAMPLER stageFlags binding

/-- The source declares `entrypoint` with the default `"main"`; a call that omits it
passes that value. -/
def shader (self : pipelineCreateHelper) (module : shaderModule)
    (stage : VkShaderStageFlagBits) (entrypoint : String) : pipelineCreateHelper :=
  let shaderStage : VkPipelineShaderStageCreateInfo := {}
  let shaderStage :=
    { shaderStage with sType := VK_STRUCTURE_TYPE_PIPELINE_SHADER_STAGE_CREATE_INFO }
  let shaderStage := { shaderStage with stage := stage }
  let shaderStage := { shaderStage with module := module.get }
  let shaderStage := { shaderStage with pName := entrypoint }
  { self with shaderStages_ := self.shaderStages_ ++ [shaderStage] }

def topology (self : pipelineCreateHelper) (value : VkPrimitiveTopology) :
    pipelineCreateHelper :=
  { self with inputAssemblyState := { self.inputAssemblyState with topology := value } }

/-- The `VkDescriptorSetLayoutCreateInfo` filled in by `createDescriptorSetLayout`. -/
def descriptorLayout_ (self : pipelineCreateHelper) : VkDescriptorSetLayoutCreateInfo :=
  let info : VkDescriptorSetLayoutCreateInfo := {}
  let info := { info with sType := VK_STRUCTURE_TYPE_DESCRIPTOR_SET_LAYOUT_CREATE_INFO }
  let info := { info with bindingCount := toUint32 self.layoutBindings_.length }
  let info := { info with pBindings := self.layoutBindings_ }
  info

def createDescriptorSetLayout (native : Native) (self : pipelineCreateHelper)
    (device : VkDevice) : Outcome pipelineCreateHelper :=
  finish native self (NativeCall.vkCreateDescriptorSetLayout device self.descriptorLayout_ 0)
    211

/-- Lines 216-226 of `createGraphicsPipeline`: the writes to the builder's own members
(blend attachment, colour blend state, dynamic-state list and dynamic state). -/
def resolveDefaults (self : pipelineCreateHelper) : pipelineCreateHelper :=
  let self := { self with blendAttachmentState := { self.blendAttachmentState with
    colorWriteMask := 0xf } }
  let self := { self with blendAttachmentState := { self.blendAttachmentState with
    blendEnable := VK_FALSE } }
  let self := { self with colorBlendState := { self.colorBlendState with
    attachmentCount := 1 } }
  let self := { self with colorBlendState := { self.colorBlendState with
    pAttachments := AttachmentsPtr.blendAttachmentState } }
  let self := { self with
    dynamicStateEnables := self.dynamicStateEnables ++ [VK_DYNAMIC_STATE_VIEWPORT] }
  let self := { self with
    dynamicStateEnables := self.dynamicStateEnables ++ [VK_DYNAMIC_STATE_SCISSOR] }
  let self := { self with dynamicState := { self.dynamicState with
    pDynamicStates := DynamicStatesPtr.dynamicStateEnables_data } }
  let self := { self with dynamicState := { self.dynamicState with
    dynamicStateCount := toUint32 self.dynamicStateEnables.length } }
  self

/-- What `&colorBlendState` shows the driver: the stored structure with `pAttachments`
followed to the array it points to. -/
def colorBlendStateView (self : pipelineCreateHelper) :
    VkPipelineColorBlendStateCreateInfo (List VkPipelineColorBlendAttachmentState) :=
  { sType := self.colorBlendState.sType
    pNext := self.colorBlendState.pNext
    flags := self.colorBlendState.flags
    logicOpEnable := self.colorBlendState.logicOpEnable
    logicOp := self.colorBlendState.logicOp
    attachmentCount := self.colorBlendState.attachmentCount
    pAttachments :=
      match self.colorBlendState.pAttachments with
      | AttachmentsPtr.null => []
      | AttachmentsPtr.blendAttachmentState => [self.blendAttachmentState]
    blendConstants := self.colorBlendState.blendConstants }

/-- What `&dynamicState` shows the driver: the stored structure with `pDynamicStates`
followed to the buffer of `dynamicStateEnables`. -/
def dynamicStateView (self : pipelineCreateHelper) :
    VkPipelineDynamicStateCreateInfo (List VkDynamicState) :=
  { sType := self.dynamicState.sType
    pNext := self.dynamicState.pNext
    flags := self.dynamicState.flags
    dynamicStateCount := self.dynamicState.dynamicStateCount
    pDynamicStates :=
      match self.dynamicState.pDynamicStates with
      | DynamicStatesPtr.null => []
      | DynamicStatesPtr.dynamicStateEnables_data => self.dynamicStateEnables }

/-- Lines 228-234 of `createGraphicsPipeline`: the local `vi`. -/
def vertexInputState (self : pipelineCreateHelper) : VkPipelineVertexInputStateCreateInfo :=
  { sType := VK_STRUCTURE_TYPE_PIPELINE_VERTEX_INPUT_STATE_CREATE_INFO
    vertexBindingDescriptionCount := toUint32 self.bindingDescriptions.length
    pVertexBindingDescriptions := self.bindingDescriptions
    vertexAttributeDescriptionCount := toUint32 self.attributeDescriptions.length
    pVertexAttributeDescriptions := self.attributeDescriptions }

/-- Lines 236-251 of `createGraphicsPipeline`: the local `pipelineCreateInfo`, read off the
builder as it stands after `resolveDefaults`.  The fields the source does not assign keep
the zero of `= {}`; `renderPass` is assigned twice in the source, both times the
argument. -/
def pipelineCreateInfo (self : pipelineCreateHelper) (renderPass : VkRenderPass)
    (pipelineLayout : VkPipelineLayout) : VkGraphicsPipelineCreateInfo :=
  { sType := VK_STRUCTURE_TYPE_GRAPHICS_PIPELINE_CREATE_INFO
    layout := pipelineLayout
    stageCount := toUint32 self.shaderStages_.length
    pVertexInputState := self.vertexInputState
    pInputAssemblyState := self.inputAssemblyState
    pRasterizationState := self.rasterizationState
    pColorBlendState := self.colorBlendStateView
    pMultisampleState := self.multisampleState
    pViewportState := self.viewportState
    pDepthStencilState := self.depthStencilState
    pStages := self.shaderStages_
    renderPass := renderPass
    pDynamicState := self.dynamicStateView }

def createGraphicsPipeline (native : Native) (self : pipelineCreateHelper)
    (device : VkDevice) (renderPass : VkRenderPass) (pipelineLayout : VkPipelineLayout)
    (pipelineCache : VkPipelineCache) : Outcome pipelineCreateHelper :=
  let self := self.resolveDefaults
  let pipelineCreateInfo := self.pipelineCreateInfo renderPass pipelineLayout
  finish native self
    (NativeCall.vkCreateGraphicsPipelines device pipelineCache 1 [pipelineCreateInfo] 0) 255

/-- The `VkPipelineLayoutCreateInfo` filled in by `createPipelineLayout`. -/
def pipelineLayoutCreateInfo (descriptorSetLayout : VkDescriptorSetLayout) :
    VkPipelineLayoutCreateInfo :=
  let info : VkPipelineLayoutCreateInfo := {}
  let info := { info with sType := VK_STRUCTURE_TYPE_PIPELINE_LAYOUT_CREATE_INFO }
  let info := { info with setLayoutCount := 1 }
  let info := { info with pSetLayouts := [descriptorSetLayout] }
  info

def createPipelineLayout (native : Native) (self : pipelineCreateHelper) (device : VkDevice)
    (descriptorSetLayout : VkDescriptorSetLayout) : Outcome pipelineCreateHelper :=
  finish native self
    (NativeCall.vkCreatePipelineLayout device (pipelineLayoutCreateInfo descriptorSetLayout) 0)
    267

end pipelineCreateHelper

/-! ## Sequences of accumulation calls -/

/-- The kinds of accumulation method; the shorthands `uniformBuffer` and
`combinedImageSampler` belong to the kind `layoutBinding`. -/
inductive AccumKind where
  | attrib
  | binding
  | layoutBinding
  | shader
  | topology
  deriving DecidableEq, Repr

/-- One call of an accumulation method of `pipelineCreateHelper`, with its arguments. -/
inductive AccumCall where
  | attrib (location binding : Nat) (format : VkFormat) (offset : Nat)
  | binding (binding stride : Nat) (inputRate : VkVertexInputRate)
  | layoutBinding (descriptorType : VkDescriptorType) (stageFlags : VkShaderStageFlags)
      (binding : Nat)
  | uniformBuffer (stageFlags : VkShaderStageFlags) (binding : Nat)
  | combinedImageSampler (stageFlags : VkShaderStageFlags) (binding : Nat)
  | shader (module : shaderModule) (stage : VkShaderStageFlagBits) (entrypoint : String)
  | topology (value : VkPrimitiveTopology)
  deriving DecidableEq, Repr

namespace AccumCall

def kind : AccumCall → AccumKind
  | attrib _ _ _ _ => AccumKind.attrib
  | binding _ _ _ => AccumKind.binding
  | layoutBinding _ _ _ => AccumKind.layoutBinding
  | uniformBuffer _ _ => AccumKind.layoutBinding
  | combinedImageSampler _ _ => AccumKind.layoutBinding
  | shader _ _ _ => AccumKind.shader
  | topology _ => AccumKind.topology

/-- Performs the call on a builder. -/
def run (self : pipelineCreateHelper) : AccumCall → pipelineCreateHelper
  | attrib location b format offset => self.attrib location b format offset
  | binding b stride inputRate => self.binding b stride inputRate
  | layoutBinding descriptorType stageFlags b => self.layoutBinding descriptorType stageFlags b
  | uniformBuffer stageFlags b => self.uniformBuffer stageFlags b
  | combinedImageSampler stageFlags b => self.combinedImageSampler stageFlags b
  | shader module stage entrypoint => self.shader module stage entrypoint
  | topology value => self.topology value

/-- The vertex binding passed by the call, when it is a `binding` call. -/
def passedBinding : AccumCall → Option VkVertexInputBindingDescription
  | binding b stride inputRate => some { binding := b, stride := stride, inputRate := inputRate }
  | _ => none

/-- The vertex attribute passed by the call, when it is an `attrib` call. -/
def passedAttrib : AccumCall → Option VkVertexInputAttributeDescription
  | attrib location b format offset =>
      some { location := location, binding := b, format := format, offset := offset }
  | _ => none

/-- The layout binding (slot, descriptor kind, stage mask) passed by the call, when it is a
call of the kind `layoutBinding`; the count is the `1` the method records. -/
def passedLayoutBinding : AccumCall → Option VkDescriptorSetLayoutBinding
  | layoutBinding descriptorType stageFlags b =>
      some { binding := b, descriptorType := descriptorType, descriptorCount := 1,
             stageFlags := stageFlags }
  | uniformBuffer stageFlags b =>
      some { binding := b, descriptorType := VK_DESCRIPTOR_TYPE_UNIFORM_BUFFER,
             descriptorCount := 1, stageFlags := stageFlags }
  | combinedImageSampler stageFlags b =>
      some { binding := b, descriptorType := VK_DESCRIPTOR_TYPE_COMBINED_IMAGE_SAMPLER,
             descriptorCount := 1, stageFlags := stageFlags }
  | _ => none

/-- The shader stage passed by the call, when it is a `shader` call. -/
def passedShader : AccumCall → Option VkPipelineShaderStageCreateInfo
  | shader module stage entrypoint =>
      some { sType := VK_STRUCTURE_TYPE_PIPELINE_SHADER_STAGE_CREATE_INFO, stage := stage,
             module := module.get, pName := entrypoint }
  | _ => none

end AccumCall

/-- Performs a sequence of accumulation calls, first call first. -/
def runAll (calls : List AccumCall) (self : pipelineCreateHelper) : pipelineCreateHelper :=
  calls.foldl AccumCall.run self

/-- The list `new` is `old` with the single element `x` appended: same elements at the same
positions, one more at the end. -/
def AppendsOne {α : Type} (old new : List α) (x : α) : Prop :=
  new = old ++ [x] ∧ new.length = old.length + 1 ∧
    (∀ i, i < old.length → new[i]? = old[i]?) ∧ new[old.length]? = some x

/-! ## Properties of requests and outcomes, and sample inputs -/

/-- The fixed-function defaults of a graphics-pipeline request: triangle list, no culling,
one colour blend attachment with blending off and write mask `0xf`, depth test and depth
write on with compare `LESS_OR_EQUAL`, stencil test off, one sample, one viewport and one
scissor, and the dynamic states viewport and scissor and no other. -/
def DefaultFixedFunctionState (info : VkGraphicsPipelineCreateInfo) : Prop :=
  info.pInputAssemblyState.topology = VK_PRIMITIVE_TOPOLOGY_TRIANGLE_LIST ∧
  info.pRasterizationState.cullMode = VK_CULL_MODE_NONE ∧
  info.pColorBlendState.attachmentCount = 1 ∧
  (∃ att, info.pColorBlendState.pAttachments = [att] ∧ att.blendEnable = VK_FALSE ∧
    att.colorWriteMask = 0xf) ∧
  info.pDepthStencilState.depthTestEnable = VK_TRUE ∧
  info.pDepthStencilState.depthWriteEnable = VK_TRUE ∧
  info.pDepthStencilState.depthCompareOp = VK_COMPARE_OP_LESS_OR_EQUAL ∧
  info.pDepthStencilState.stencilTestEnable = VK_FALSE ∧
  info.pMultisampleState.rasterizationSamples = VK_SAMPLE_COUNT_1_BIT ∧
  info.pViewportState.viewportCount = 1 ∧
  info.pViewportState.scissorCount = 1 ∧
  info.pDynamicState.dynamicStateCount = 2 ∧
  info.pDynamicState.pDynamicStates = [VK_DYNAMIC_STATE_VIEWPORT, VK_DYNAMIC_STATE_SCISSOR]

/-- A driver that accepts every call and hands out the handle `77`. -/
def acceptingNative : Native := fun _ => { err := VK_SUCCESS, written := some 77 }

/-- A driver that fails every call with `VK_ERROR_OUT_OF_DEVICE_MEMORY` (`-2`) and leaves
the output location untouched. -/
def failingNative : Native := fun _ => { err := -2, written := none }

/-- A vertex/fragment set-up: one binding, two attributes, a uniform buffer and two shader
stages. -/
def sampleCalls : List AccumCall :=
  [ AccumCall.binding 0 32 VK_VERTEX_INPUT_RATE_VERTEX,
    AccumCall.attrib 0 0 106 0,
    AccumCall.attrib 1 0 106 12,
    AccumCall.uniformBuffer VK_SHADER_STAGE_VERTEX_BIT 0,
    AccumCall.shader { handle := 5 } VK_SHADER_STAGE_VERTEX_BIT "main",
    AccumCall.shader { handle := 6 } VK_SHADER_STAGE_FRAGMENT_BIT "main" ]

/-- The request of `createGraphicsPipeline` carries the accumulated state: one
`vkCreateGraphicsPipelines` call with the given device and cache and a create-info count
of 1, whose vertex bindings, vertex attributes and stages are the builder's sequences with
counts equal to their lengths, whose `layout` and `renderPass` are the arguments, and whose
handle is returned when the driver reports success. -/
def CarriesAccumulatedState (self : pipelineCreateHelper) (native : Native)
    (device : VkDevice) (renderPass : VkRenderPass) (pipelineLayout : VkPipelineLayout)
    (pipelineCache : VkPipelineCache) : Prop :=
  ∃ info : VkGraphicsPipelineCreateInfo,
    (self.createGraphicsPipeline native device renderPass pipelineLayout pipelineCache).calls =
      [NativeCall.vkCreateGraphicsPipelines device pipelineCache 1 [info] 0] ∧
    info.pVertexInputState.pVertexBindingDescriptions = self.bindingDescriptions ∧
    info.pVertexInputState.vertexBindingDescriptionCount = self.bindingDescriptions.length ∧
    info.pVertexInputState.pVertexAttributeDescriptions = self.attributeDescriptions ∧
    info.pVertexInputState.vertexAttributeDescriptionCount =
      self.attributeDescriptions.length ∧
    info.pStages = self.shaderStages_ ∧
    info.stageCount = self.shaderStages_.length ∧
    info.layout = pipelineLayout ∧
    info.renderPass = renderPass ∧
    ∀ reply, reply = native
        (NativeCall.vkCreateGraphicsPipelines device pipelineCache 1 [info] 0) →
      reply.err = VK_SUCCESS →
      (self.createGraphicsPipeline native device renderPass pipelineLayout
        pipelineCache).result = Except.ok (reply.written.getD VK_NULL_HANDLE)

/-- A builder on which `binding(0, 12)` was called `2 ^ 32` times. -/
def oversizedBuilder : pipelineCreateHelper :=
  runAll (List.replicate (2 ^ 32) (AccumCall.binding 0 12 VK_VERTEX_INPUT_RATE_VERTEX))
    pipelineCreateHelper.new

/-- Three sizing entries of three distinct kinds, with counts 10, 20 and 30. -/
def sampleSizing : descriptorPoolHelper :=
  (((descriptorPoolHelper.new 1).samplers 10).combinedImageSamplers 20).uniformBuffers 30

/-- The request of `createDescriptorSetLayout`, on the fresh builder that received `calls`,
lists the calls of the kind `layoutBinding`: `bindingCount` is their number and `pBindings`
is what they passed, in call order. -/
def PresentsLayoutBindingCalls (calls : List AccumCall) (native : Native)
    (device : VkDevice) : Prop :=
  ∃ info : VkDescriptorSetLayoutCreateInfo,
    ((runAll calls pipelineCreateHelper.new).createDescriptorSetLayout native device).calls =
      [NativeCall.vkCreateDescriptorSetLayout device info 0] ∧
    info.bindingCount = calls.countP (fun c => c.kind = AccumKind.layoutBinding) ∧
    info.pBindings = calls.filterMap AccumCall.passedLayoutBinding

/-- The outcome of a creation operation follows the driver's return code: one native call
was issued; the operation throws exactly when that call returned a non-zero code, the
exception carries that code and no handle is returned; on a zero code the handle left in
the output location is returned. -/
def PropagatesNativeResult {σ : Type} (native : Native) (o : Outcome σ) : Prop :=
  ∃ call, o.calls = [call] ∧
    ((∃ e, o.result = Except.error e) ↔ (native call).err ≠ VK_SUCCESS) ∧
    (∀ e, o.result = Except.error e → e.code = (native call).err) ∧
    ((native call).err ≠ VK_SUCCESS → ∀ h, o.result ≠ Except.ok h) ∧
    ((native call).err = VK_SUCCESS →
      o.result = Except.ok ((native call).written.getD VK_NULL_HANDLE))

/-- The helper with the descriptor count of every sizing entry replaced by `counts`
of that entry; kinds, order and number of entries are kept. -/
def withCounts (self : descriptorPoolHelper) (counts : VkDescriptorPoolSize → Nat) :
    descriptorPoolHelper :=
  { self with
    typeCounts_ := self.typeCounts_.map (fun e => { e with descriptorCount := counts e }) }

/-- The calls `uniformBuffer(VK_SHADER_STAGE_VERTEX_BIT, 0)`, `2 ^ 32` times. -/
def oversizedLayoutCalls : List AccumCall :=
  List.replicate (2 ^ 32) (AccumCall.uniformBuffer VK_SHADER_STAGE_VERTEX_BIT 0)

/-! ## Sequences of sizing calls -/

/-- One call of a sizing method of `descriptorPoolHelper`, with its arguments. -/
inductive SizingCall where
  | samplers (descriptorCount : Nat)
  | combinedImageSamplers (descriptorCount : Nat)
  | uniformBuffers (descriptorCount : Nat)
  | descriptors (type : VkDescriptorType) (descriptorCount : Nat)
  deriving DecidableEq, Repr

namespace SizingCall

/-- Performs the call on a helper. -/
def run (self : descriptorPoolHelper) : SizingCall → descriptorPoolHelper
  | samplers descriptorCount => self.samplers descriptorCount
  | combinedImageSamplers descriptorCount => self.combinedImageSamplers descriptorCount
  | uniformBuffers descriptorCount => self.uniformBuffers descriptorCount
  | descriptors type descriptorCount => self.descriptors type descriptorCount

/-- The sizing entry the call passes. -/
def passed : SizingCall → VkDescriptorPoolSize
  | samplers descriptorCount =>
      { type := VK_DESCRIPTOR_TYPE_SAMPLER, descriptorCount := descriptorCount }
  | combinedImageSamplers descriptorCount =>
      { type := VK_DESCRIPTOR_TYPE_COMBINED_IMAGE_SAMPLER, descriptorCount := descriptorCount }
  | uniformBuffers descriptorCount =>
      { type := VK_DESCRIPTOR_TYPE_UNIFORM_BUFFER, descriptorCount := descriptorCount }
  | descriptors type descriptorCount => { type := type, descriptorCount := descriptorCount }

end SizingCall

/-- Performs a sequence of sizing calls, first call first. -/
def runSizing (calls : List SizingCall) (self : descriptorPoolHelper) : descriptorPoolHelper :=
  calls.foldl SizingCall.run self

/-- Two helpers constructed with `maxSets₁` and `maxSets₂` and then given the same sizing
calls present the same request to `vkCreateDescriptorPool`, and its `maxSets` is twice the
number of entries. -/
def ConstructorArgWithoutEffect (maxSets₁ maxSets₂ : Nat) (calls : List SizingCall)
    (native : Native) (dev : VkDevice) : Prop :=
  ∃ info : VkDescriptorPoolCreateInfo,
    ((runSizing calls (descriptorPoolHelper.new maxSets₁)).createDescriptorPool native
      dev).calls = [NativeCall.vkCreateDescriptorPool dev info 0] ∧
    ((runSizing calls (descriptorPoolHelper.new maxSets₂)).createDescriptorPool native
      dev).calls = [NativeCall.vkCreateDescriptorPool dev info 0] ∧
    info.maxSets = 2 * calls.length

/-- The calls `uniformBuffers(1)`, `2 ^ 31` times. -/
def oversizedSizingCalls : List SizingCall :=
  List.replicate (2 ^ 31) (SizingCall.uniformBuffers 1)

/-! ## The resource classes `descriptorPool`, `pipelineCache`, `pipelineLayout`, `pipeline` -/

namespace resource

/-- Modelled from the spec: the constructor `resource(dev)` of `vku/resource.hpp` (not part
of the sources at hand), the spec's `construct(device)`: "produces an empty instance
(`owns=false`), recording the device for later use"; the handle is the null sentinel. -/
def construct (dev : VkDevice) : resource :=
  { handle := VK_NULL_HANDLE, device := dev, owns := false }

/-- Modelled from the spec: the member `set(value, owns)` of `vku/resource.hpp` (not part of
the sources at hand), the spec's `adopt(handle, owns)`: "binds a handle value and ownership
flag". -/
def set (self : resource) (value : Nat) (owns : Bool) : resource :=
  { self with handle := value, owns := owns }

/-- Modelled from the spec: the accessor `dev()` of `vku/resource.hpp` (not part of the
sources at hand); it returns the recorded device. -/
def dev (self : resource) : VkDevice := self.device

end resource

/-- The four classes of this header that derive from `resource<T, Derived>`. -/
inductive ResourceClass where
  | descriptorPool
  | pipelineCache
  | pipelineLayout
  | pipeline
  deriving DecidableEq, Repr

/-- The member `descriptorPool::destroy()`. -/
def descriptorPool.destroy (self : resource) : List DestroyCall :=
  [DestroyCall.vkDestroyDescriptorPool self.dev self.get 0]

/-- The member `pipelineCache::destroy()`. -/
def pipelineCache.destroy (self : resource) : List DestroyCall :=
  [DestroyCall.vkDestroyPipelineCache self.dev self.get 0]

/-- The member `pipelineLayout::destroy()`. -/
def pipelineLayout.destroy (self : resource) : List DestroyCall :=
  [DestroyCall.vkDestroyPipelineLayout self.dev self.get 0]

/-- The member `pipeline::destroy()`. -/
def pipeline.destroy (self : resource) : List DestroyCall :=
  [DestroyCall.vkDestroyPipeline self.dev self.get 0]

/-- The `destroy()` of the derived class, as the base class reaches it. -/
def ResourceClass.destroy : ResourceClass → resource → List DestroyCall
  | ResourceClass.descriptorPool, self => descriptorPool.destroy self
  | ResourceClass.pipelineCache, self => pipelineCache.destroy self
  | ResourceClass.pipelineLayout, self => pipelineLayout.destroy self
  | ResourceClass.pipeline, self => pipeline.destroy self

/-- Modelled from the spec: the destructor of `resource<T, Derived>` in `vku/resource.hpp`
(not part of the sources at hand): "if `owns==true`, invokes the type-specific native
destroy call with `(device, handle)`; no-op otherwise".  The value is the list of destroy
calls issued. -/
def resource.destructor (cls : ResourceClass) (self : resource) : List DestroyCall :=
  if self.owns then cls.destroy self else []

/-- A move: the destroy calls issued, the destination and the source afterwards. -/
structure Moved where
  destroyed : List DestroyCall
  dst : resource
  src : resource
  deriving DecidableEq, Repr

/-- Modelled from the spec: the move constructor that `VKU_RESOURCE_BOILERPLATE` (macro of
`vku/resource.hpp`, not part of the sources at hand) gives every resource class:
"transfers `(handle, device, owns)` from source to destination; source becomes empty
(`owns=false`, handle=null)". -/
def resource.moveConstruct (src : resource) : Moved :=
  { destroyed := []
    dst := { handle := src.handle, device := src.device, owns := src.owns }
    src := { src with handle := VK_NULL_HANDLE, owns := false } }

/-- Modelled from the spec: the move assignment that `VKU_RESOURCE_BOILERPLATE` (macro of
`vku/resource.hpp`, not part of the sources at hand) gives every resource class: as the
move constructor, and "if the destination previously owned a handle, that handle is
destroyed first via its type-specific destroy hook before the transfer completes". -/
def resource.moveAssign (cls : ResourceClass) (dst src : resource) : Moved :=
  { destroyed := if dst.owns then cls.destroy dst else []
    dst := { handle := src.handle, device := src.device, owns := src.owns }
    src := { src with handle := VK_NULL_HANDLE, owns := false } }

/-- What a creating constructor leaves behind: the native creation calls issued, the
destroy calls issued while unwinding (the base sub-object is destroyed when the body
throws) and the constructed resource or the thrown exception. -/
structure Constructed where
  calls : List NativeCall
  destroyed : List DestroyCall
  result : Except error resource

/-- The constructor `descriptorPool(const vku::device &dev, vku::descriptorPoolHelper
&layout) : resource(dev)` with body `set(layout.createDescriptorPool(dev), true);`. -/
def descriptorPool.new (native : Native) (dev : VkDevice) (layout : descriptorPoolHelper) :
    Constructed :=
  let self := resource.construct dev
  let created := layout.createDescriptorPool native dev
  match created.result with
  | Except.error e =>
      { calls := created.calls
        destroyed := self.destructor ResourceClass.descriptorPool
        result := Except.error e }
  | Except.ok value =>
      { calls := created.calls, destroyed := [], result := Except.ok (self.set value true) }

/-- The `VkPipelineCacheCreateInfo` filled in by the constructor of `pipelineCache`. -/
def pipelineCache.pipelineCacheCreateInfo : VkPipelineCacheCreateInfo :=
  let info : VkPipelineCacheCreateInfo := {}
  let info := { info with sType := VK_STRUCTURE_TYPE_PIPELINE_CACHE_CREATE_INFO }
  info

/-- The constructor `pipelineCache(VkDevice dev) : resource(dev)`.  The local
`VkPipelineCache cache;` is declared without an initialiser; `cache₀` is what it holds
before the driver writes to it. -/
def pipelineCache.new (native : Native) (dev : VkDevice) (cache₀ : VkPipelineCache) :
    Constructed :=
  let self := resource.construct dev
  let call := NativeCall.vkCreatePipelineCache dev pipelineCache.pipelineCacheCreateInfo 0
  let reply := native call
  let cache := reply.written.getD cache₀
  let err := reply.err
  if err ≠ 0 then
    { calls := [call]
      destroyed := self.destructor ResourceClass.pipelineCache
      result := Except.error ⟨err, thisFile, 90⟩ }
  else
    { calls := [call], destroyed := [], result := Except.ok (self.set cache true) }

/-- The constructor `pipeline(device, renderPass, pipelineCache, pipeLayout, helper) :
resource(device)` with body `set(helper.createGraphicsPipeline(device, renderPass,
pipeLayout.get(), pipelineCache.get()), true);`.  The first component is `helper` after the
call. -/
def pipeline.new (native : Native) (device : VkDevice) (renderPass : VkRenderPass)
    (pipelineCache pipeLayout : resource) (helper : pipelineCreateHelper) :
    pipelineCreateHelper × Constructed :=
  let self := resource.construct device
  let created :=
    helper.createGraphicsPipeline native device renderPass pipeLayout.get pipelineCache.get
  match created.result with
  | Except.error e =>
      (created.self,
        { calls := created.calls
          destroyed := self.destructor ResourceClass.pipeline
          result := Except.error e })
  | Except.ok value =>
      (created.self,
        { calls := created.calls, destroyed := [], result := Except.ok (self.set value true) })

/-- The destroy function of the class, called with a device, a handle and a null
allocator. -/
def ResourceClass.destroyCall : ResourceClass → VkDevice → Nat → DestroyCall
  | ResourceClass.descriptorPool, device, handle =>
      DestroyCall.vkDestroyDescriptorPool device handle 0
  | ResourceClass.pipelineCache, device, handle =>
      DestroyCall.vkDestroyPipelineCache device handle 0
  | ResourceClass.pipelineLayout, device, handle =>
      DestroyCall.vkDestroyPipelineLayout device handle 0
  | ResourceClass.pipeline, device, handle => DestroyCall.vkDestroyPipeline device handle 0

/-- A creating constructor of the class `cls` adopts and the destructor releases exactly
once: the constructor issues one native creation call; when that call reports success the
constructed resource holds the handle left in the output location (`init` when the driver
wrote nothing), records `dev`, has `owns = true`, nothing was destroyed during
construction, and ending its lifetime issues exactly one destroy call, with `dev` and that
handle; when the call fails no resource exists and nothing is destroyed. -/
def AdoptsAndDestroysOnce (cls : ResourceClass) (native : Native) (dev : VkDevice) (init : Nat)
    (c : Constructed) : Prop :=
  ∃ call, c.calls = [call] ∧
    ((native call).err = VK_SUCCESS →
      ∃ r : resource, c.result = Except.ok r ∧ c.destroyed = [] ∧
        r.handle = (native call).written.getD init ∧ r.device = dev ∧ r.owns = true ∧
        r.destructor cls = [cls.destroyCall dev ((native call).written.getD init)]) ∧
    ((native call).err ≠ VK_SUCCESS →
      (∃ e, c.result = Except.error e ∧ e.code = (native call).err) ∧ c.destroyed = [])

/-- The state after moving the resource `A`: the source is empty (`owns = false`, null
handle), the destination holds what `A` held (handle, device, `owns`), ending the source's
lifetime issues no destroy call, ending the destination's issues exactly one, for the
handle `A` held, and the two do not both have `owns = true`. -/
def OwnershipTransferred (cls : ResourceClass) (A : resource) (m : Moved) : Prop :=
  m.src.owns = false ∧ m.src.handle = VK_NULL_HANDLE ∧
  m.dst.owns = true ∧ m.dst.handle = A.handle ∧ m.dst.device = A.device ∧
  m.src.destructor cls = [] ∧
  m.dst.destructor cls = [cls.destroyCall A.device A.handle] ∧
  ¬ (m.src.owns = true ∧ m.dst.owns = true)

/-! ## General lemmas -/

theorem appendsOne_append {α : Type} (old : List α) (x : α) : AppendsOne old (old ++ [x]) x := by
  refine ⟨rfl, by simp, ?_, by simp⟩
  intro i hi
  exact List.getElem?_append_left hi

theorem toUint32_of_lt {n : Nat} (h : n < 2 ^ 32) : toUint32 n = n :=
  Nat.mod_eq_of_lt h

theorem runAll_nil (self : pipelineCreateHelper) : runAll [] self = self := rfl

theorem runAll_cons (c : AccumCall) (calls : List AccumCall) (self : pipelineCreateHelper) :
    runAll (c :: calls) self = runAll calls (c.run self) := rfl

theorem run_bindingDescriptions (c : AccumCall) (self : pipelineCreateHelper) :
    (c.run self).bindingDescriptions = self.bindingDescriptions ++ c.passedBinding.toList := by
  cases c <;> simp [AccumCall.run, AccumCall.passedBinding, pipelineCreateHelper.attrib,
    pipelineCreateHelper.binding, pipelineCreateHelper.layoutBinding,
    pipelineCreateHelper.uniformBuffer, pipelineCreateHelper.combinedImageSampler,
    pipelineCreateHelper.shader, pipelineCreateHelper.topology]

theorem run_attributeDescriptions (c : AccumCall) (self : pipelineCreateHelper) :
    (c.run self).attributeDescriptions =
      self.attributeDescriptions ++ c.passedAttrib.toList := by
  cases c <;> simp [AccumCall.run, AccumCall.passedAttrib, pipelineCreateHelper.attrib,
    pipelineCreateHelper.binding, pipelineCreateHelper.layoutBinding,
    pipelineCreateHelper.uniformBuffer, pipelineCreateHelper.combinedImageSampler,
    pipelineCreateHelper.shader, pipelineCreateHelper.topology]

theorem run_layoutBindings (c : AccumCall) (self : pipelineCreateHelper) :
    (c.run self).layoutBindings_ = self.layoutBindings_ ++ c.passedLayoutBinding.toList := by
  cases c <;> simp [AccumCall.run, AccumCall.passedLayoutBinding, pipelineCreateHelper.attrib,
    pipelineCreateHelper.binding, pipelineCreateHelper.layoutBinding,
    pipelineCreateHelper.uniformBuffer, pipelineCreateHelper.combinedImageSampler,
    pipelineCreateHelper.shader, pipelineCreateHelper.topology]

theorem run_shaderStages (c : AccumCall) (self : pipelineCreateHelper) :
    (c.run self).shaderStages_ = self.shaderStages_ ++ c.passedShader.toList := by
  cases c <;> simp [AccumCall.run, AccumCall.passedShader, pipelineCreateHelper.attrib,
    pipelineCreateHelper.binding, pipelineCreateHelper.layoutBinding,
    pipelineCreateHelper.uniformBuffer, pipelineCreateHelper.combinedImageSampler,
    pipelineCreateHelper.shader, pipelineCreateHelper.topology]

theorem filterMap_eq_toList_append {α β : Type} (f : α → Option β) (c : α) (cs : List α) :
    (c :: cs).filterMap f = (f c).toList ++ cs.filterMap f := by
  cases h : f c <;> simp [List.filterMap_cons, h]

theorem runAll_bindingDescriptions (calls : List AccumCall) (self : pipelineCreateHelper) :
    (runAll calls self).bindingDescriptions =
      self.bindingDescriptions ++ calls.filterMap AccumCall.passedBinding := by
  induction calls generalizing self with
  | nil => simp [runAll_nil]
  | cons c cs ih =>
    rw [runAll_cons, ih, run_bindingDescriptions, filterMap_eq_toList_append,
      List.append_assoc]

theorem runAll_attributeDescriptions (calls : List AccumCall) (self : pipelineCreateHelper) :
    (runAll calls self).attributeDescriptions =
      self.attributeDescriptions ++ calls.filterMap AccumCall.passedAttrib := by
  induction calls generalizing self with
  | nil => simp [runAll_nil]
  | cons c cs ih =>
    rw [runAll_cons, ih, run_attributeDescriptions, filterMap_eq_toList_append,
      List.append_assoc]

theorem runAll_layoutBindings (calls : List AccumCall) (self : pipelineCreateHelper) :
    (runAll calls self).layoutBindings_ =
      self.layoutBindings_ ++ calls.filterMap AccumCall.passedLayoutBinding := by
  induction calls generalizing self with
  | nil => simp [runAll_nil]
  | cons c cs ih =>
    rw [runAll_cons, ih, run_layoutBindings, filterMap_eq_toList_append, List.append_assoc]

theorem runAll_shaderStages (calls : List AccumCall) (self : pipelineCreateHelper) :
    (runAll calls self).shaderStages_ =
      self.shaderStages_ ++ calls.filterMap AccumCall.passedShader := by
  induction calls generalizing self with
  | nil => simp [runAll_nil]
  | cons c cs ih =>
    rw [runAll_cons, ih, run_shaderStages, filterMap_eq_toList_append, List.append_assoc]

/-! ## C1: every accumulation call appends exactly what was passed -/

/-- C1. On every builder state and for every argument tuple, `binding`, `attrib`,
`layoutBinding` and `shader` each append exactly one element, equal to what was passed, at
the end of their own sequence (the length grows by one and every earlier element keeps its
position and value); hence after any sequence of accumulation calls each of the four
sequences is the initial one followed by the passed elements in call order. -/
theorem C1_accumulation_appends_in_call_order (self : pipelineCreateHelper) :
    (∀ b stride rate,
      AppendsOne self.bindingDescriptions (self.binding b stride rate).bindingDescriptions
        { binding := b, stride := stride, inputRate := rate }) ∧
    (∀ location b format offset,
      AppendsOne self.attributeDescriptions
        (self.attrib location b format offset).attributeDescriptions
        { location := location, binding := b, format := format, offset := offset }) ∧
    (∀ kind stages b,
      AppendsOne self.layoutBindings_ (self.layoutBinding kind stages b).layoutBindings_
        { binding := b, descriptorType := kind, descriptorCount := 1, stageFlags := stages,
          pImmutableSamplers := 0 }) ∧
    (∀ (module : shaderModule) stage entry,
      AppendsOne self.shaderStages_ (self.shader module stage entry).shaderStages_
        { sType := VK_STRUCTURE_TYPE_PIPELINE_SHADER_STAGE_CREATE_INFO, stage := stage,
          module := module.get, pName := entry }) ∧
    (∀ calls : List AccumCall,
      (runAll calls self).bindingDescriptions =
        self.bindingDescriptions ++ calls.filterMap AccumCall.passedBinding ∧
      (runAll calls self).attributeDescriptions =
        self.attributeDescriptions ++ calls.filterMap AccumCall.passedAttrib ∧
      (runAll calls self).layoutBindings_ =
        self.layoutBindings_ ++ calls.filterMap AccumCall.passedLayoutBinding ∧
      (runAll calls self).shaderStages_ =
        self.shaderStages_ ++ calls.filterMap AccumCall.passedShader) := by
  refine ⟨?_, ?_, ?_, ?_, ?_⟩
  · intro b stride rate
    exact appendsOne_append _ _
  · intro location b format offset
    exact appendsOne_append _ _
  · intro kind stages b
    exact appendsOne_append _ _
  · intro module stage entry
    exact appendsOne_append _ _
  · intro calls
    exact ⟨runAll_bindingDescriptions calls self, runAll_attributeDescriptions calls self,
      runAll_layoutBindings calls self, runAll_shaderStages calls self⟩

/-! ## C2: the defaults of a fresh builder -/

theorem finish_calls {σ : Type} (native : Native) (self : σ) (call : NativeCall) (line : Nat) :
    (finish native self call line).calls = [call] := by
  simp only [finish]
  split <;> rfl

theorem finish_self {σ : Type} (native : Native) (self : σ) (call : NativeCall) (line : Nat) :
    (finish native self call line).self = self := by
  simp only [finish]
  split <;> rfl

/-- The members an accumulation call never writes; `inputAssemblyState` is written by
`topology` alone. -/
theorem run_frame (c : AccumCall) (self : pipelineCreateHelper) :
    (c.run self).dynamicStateEnables = self.dynamicStateEnables ∧
    (c.run self).rasterizationState = self.rasterizationState ∧
    (c.run self).colorBlendState = self.colorBlendState ∧
    (c.run self).blendAttachmentState = self.blendAttachmentState ∧
    (c.run self).viewportState = self.viewportState ∧
    (c.run self).dynamicState = self.dynamicState ∧
    (c.run self).depthStencilState = self.depthStencilState ∧
    (c.run self).multisampleState = self.multisampleState ∧
    (c.kind ≠ AccumKind.topology →
      (c.run self).inputAssemblyState = self.inputAssemblyState) := by
  cases c <;> simp [AccumCall.run, AccumCall.kind, pipelineCreateHelper.attrib,
    pipelineCreateHelper.binding, pipelineCreateHelper.layoutBinding,
    pipelineCreateHelper.uniformBuffer, pipelineCreateHelper.combinedImageSampler,
    pipelineCreateHelper.shader, pipelineCreateHelper.topology]

theorem runAll_frame (calls : List AccumCall) (self : pipelineCreateHelper) :
    (runAll calls self).dynamicStateEnables = self.dynamicStateEnables ∧
    (runAll calls self).rasterizationState = self.rasterizationState ∧
    (runAll calls self).colorBlendState = self.colorBlendState ∧
    (runAll calls self).blendAttachmentState = self.blendAttachmentState ∧
    (runAll calls self).viewportState = self.viewportState ∧
    (runAll calls self).dynamicState = self.dynamicState ∧
    (runAll calls self).depthStencilState = self.depthStencilState ∧
    (runAll calls self).multisampleState = self.multisampleState ∧
    ((∀ c ∈ calls, c.kind ≠ AccumKind.topology) →
      (runAll calls self).inputAssemblyState = self.inputAssemblyState) := by
  induction calls generalizing self with
  | nil => simp [runAll_nil]
  | cons c cs ih =>
    obtain ⟨h1, h2, h3, h4, h5, h6, h7, h8, h9⟩ := ih (c.run self)
    obtain ⟨g1, g2, g3, g4, g5, g6, g7, g8, g9⟩ := run_frame c self
    rw [runAll_cons]
    refine ⟨h1.trans g1, h2.trans g2, h3.trans g3, h4.trans g4, h5.trans g5, h6.trans g6,
      h7.trans g7, h8.trans g8, ?_⟩
    intro hno
    exact (h9 (fun d hd => hno d (List.mem_cons_of_mem c hd))).trans
      (g9 (hno c (List.mem_cons_self c cs)))

/-- C2. A freshly constructed builder that then received any accumulation calls other than
`topology` presents, at its first `createGraphicsPipeline`, exactly one
`vkCreateGraphicsPipelines` call whose request has the default fixed-function state:
triangle list, cull mode none, one colour blend attachment with `blendEnable = false` and
write mask `0xf`, depth test and write enabled with compare less-or-equal, stencil test
disabled, one sample, one viewport and one scissor, dynamic states exactly
`[viewport, scissor]`. -/
theorem C2_fresh_builder_presents_default_state (calls : List AccumCall)
    (hno : ∀ c ∈ calls, c.kind ≠ AccumKind.topology) (native : Native) (device : VkDevice)
    (renderPass : VkRenderPass) (pipelineLayout : VkPipelineLayout)
    (pipelineCache : VkPipelineCache) :
    ∃ info : VkGraphicsPipelineCreateInfo,
      ((runAll calls pipelineCreateHelper.new).createGraphicsPipeline native device renderPass
        pipelineLayout pipelineCache).calls =
        [NativeCall.vkCreateGraphicsPipelines device pipelineCache 1 [info] 0] ∧
      DefaultFixedFunctionState info := by
  obtain ⟨h1, h2, h3, h4, h5, h6, h7, h8, h9⟩ := runAll_frame calls pipelineCreateHelper.new
  refine ⟨_, finish_calls _ _ _ _, ?_⟩
  simp only [DefaultFixedFunctionState, pipelineCreateHelper.pipelineCreateInfo,
    pipelineCreateHelper.resolveDefaults, pipelineCreateHelper.colorBlendStateView,
    pipelineCreateHelper.dynamicStateView, h1, h2, h3, h4, h5, h6, h7, h8, h9 hno]
  simp [pipelineCreateHelper.new, toUint32, VK_FALSE]

/-- C2 at `sampleCalls` (no `topology` call among them) with an accepting driver. -/
theorem C2_fresh_builder_presents_default_state_witness :
    (∀ c ∈ sampleCalls, c.kind ≠ AccumKind.topology) ∧
    ∃ info : VkGraphicsPipelineCreateInfo,
      ((runAll sampleCalls pipelineCreateHelper.new).createGraphicsPipeline acceptingNative 1 2
        3 4).calls = [NativeCall.vkCreateGraphicsPipelines 1 4 1 [info] 0] ∧
      DefaultFixedFunctionState info :=
  ⟨by decide, C2_fresh_builder_presents_default_state sampleCalls (by decide) acceptingNative
    1 2 3 4⟩

/-! ## C3: the dynamic-state list of repeated `createGraphicsPipeline` calls -/

theorem createGraphicsPipeline_calls (self : pipelineCreateHelper) (native : Native)
    (device : VkDevice) (renderPass : VkRenderPass) (pipelineLayout : VkPipelineLayout)
    (pipelineCache : VkPipelineCache) :
    (self.createGraphicsPipeline native device renderPass pipelineLayout pipelineCache).calls =
      [NativeCall.vkCreateGraphicsPipelines device pipelineCache 1
        [self.resolveDefaults.pipelineCreateInfo renderPass pipelineLayout] 0] :=
  finish_calls _ _ _ _

theorem createGraphicsPipeline_self (self : pipelineCreateHelper) (native : Native)
    (device : VkDevice) (renderPass : VkRenderPass) (pipelineLayout : VkPipelineLayout)
    (pipelineCache : VkPipelineCache) :
    (self.createGraphicsPipeline native device renderPass pipelineLayout pipelineCache).self =
      self.resolveDefaults :=
  finish_self _ _ _ _

/-- C3 (the code at the failing input). On a fresh builder the first
`createGraphicsPipeline` presents the dynamic states `[viewport, scissor]` with
`dynamicStateCount = 2`; a second call on the same builder presents
`[viewport, scissor, viewport, scissor]` with `dynamicStateCount = 4`. -/
theorem C3_second_call_presents_four_dynamic_states :
    ∃ first second : VkGraphicsPipelineCreateInfo,
      (pipelineCreateHelper.new.createGraphicsPipeline acceptingNative 1 2 3 4).calls =
        [NativeCall.vkCreateGraphicsPipelines 1 4 1 [first] 0] ∧
      first.pDynamicState.dynamicStateCount = 2 ∧
      first.pDynamicState.pDynamicStates =
        [VK_DYNAMIC_STATE_VIEWPORT, VK_DYNAMIC_STATE_SCISSOR] ∧
      ((pipelineCreateHelper.new.createGraphicsPipeline acceptingNative 1 2 3 4).self.createGraphicsPipeline
        acceptingNative 1 2 3 4).calls =
        [NativeCall.vkCreateGraphicsPipelines 1 4 1 [second] 0] ∧
      second.pDynamicState.dynamicStateCount = 4 ∧
      second.pDynamicState.pDynamicStates =
        [VK_DYNAMIC_STATE_VIEWPORT, VK_DYNAMIC_STATE_SCISSOR, VK_DYNAMIC_STATE_VIEWPORT,
          VK_DYNAMIC_STATE_SCISSOR] :=
  ⟨_, _, rfl, rfl, rfl, rfl, rfl, rfl⟩

/-! ## C4: the request carries the accumulated state -/

theorem filterMap_replicate_of_some {α β : Type} (f : α → Option β) (c : α) (x : β)
    (h : f c = some x) (n : Nat) :
    (List.replicate n c).filterMap f = List.replicate n x := by
  induction n with
  | zero => rfl
  | succ k ih => rw [List.replicate_succ, List.filterMap_cons_some h, ih, List.replicate_succ]

theorem count_of_carries (self : pipelineCreateHelper) (native : Native) (device : VkDevice)
    (renderPass : VkRenderPass) (pipelineLayout : VkPipelineLayout)
    (pipelineCache : VkPipelineCache)
    (h : CarriesAccumulatedState self native device renderPass pipelineLayout pipelineCache) :
    toUint32 self.bindingDescriptions.length = self.bindingDescriptions.length := by
  obtain ⟨info, hcalls, -, hcount, -⟩ := h
  rw [createGraphicsPipeline_calls] at hcalls
  simp only [List.cons.injEq, NativeCall.vkCreateGraphicsPipelines.injEq, and_true,
    true_and] at hcalls
  subst hcalls
  exact hcount

theorem oversizedBuilder_length : oversizedBuilder.bindingDescriptions.length = 2 ^ 32 := by
  unfold oversizedBuilder
  rw [runAll_bindingDescriptions,
    filterMap_replicate_of_some AccumCall.passedBinding
      (AccumCall.binding 0 12 VK_VERTEX_INPUT_RATE_VERTEX)
      { binding := 0, stride := 12, inputRate := VK_VERTEX_INPUT_RATE_VERTEX } rfl,
    List.length_append, List.length_replicate]
  exact Nat.zero_add _

/-- C4, as stated, fails on a builder with `2 ^ 32` vertex bindings: the request's
`vertexBindingDescriptionCount` is the `uint32_t` cast of the length, which is `0` there. -/
theorem C4_count_wraps_at_2_pow_32 :
    ¬ CarriesAccumulatedState oversizedBuilder acceptingNative 1 2 3 4 := by
  intro h
  have hc := count_of_carries _ _ _ _ _ _ h
  rw [oversizedBuilder_length] at hc
  simp [toUint32] at hc

/-- C4 (amended). For every builder state whose `bindingDescriptions`,
`attributeDescriptions` and `shaderStages_` each hold fewer than `2 ^ 32` elements, the
request of `createGraphicsPipeline` carries the accumulated state unchanged and in
insertion order, with counts equal to the lengths, `layout` and `renderPass` equal to the
arguments, the native call made with the given device and cache and a create-info count of
1, and the driver's handle returned on success. -/
theorem C4_request_carries_accumulated_state (self : pipelineCreateHelper) (native : Native)
    (device : VkDevice) (renderPass : VkRenderPass) (pipelineLayout : VkPipelineLayout)
    (pipelineCache : VkPipelineCache)
    (hb : self.bindingDescriptions.length < 2 ^ 32)
    (ha : self.attributeDescriptions.length < 2 ^ 32)
    (hs : self.shaderStages_.length < 2 ^ 32) :
    CarriesAccumulatedState self native device renderPass pipelineLayout pipelineCache := by
  refine ⟨_, createGraphicsPipeline_calls _ _ _ _ _ _, rfl, toUint32_of_lt hb, rfl,
    toUint32_of_lt ha, rfl, toUint32_of_lt hs, rfl, rfl, ?_⟩
  intro reply hreply herr
  subst hreply
  simp only [pipelineCreateHelper.createGraphicsPipeline, finish]
  rw [if_neg (by simpa [VK_SUCCESS] using herr)]

/-- C4 (amended) at the builder reached by `sampleCalls`, with an accepting driver. -/
theorem C4_request_carries_accumulated_state_witness :
    (runAll sampleCalls pipelineCreateHelper.new).bindingDescriptions.length < 2 ^ 32 ∧
    (runAll sampleCalls pipelineCreateHelper.new).attributeDescriptions.length < 2 ^ 32 ∧
    (runAll sampleCalls pipelineCreateHelper.new).shaderStages_.length < 2 ^ 32 ∧
    CarriesAccumulatedState (runAll sampleCalls pipelineCreateHelper.new) acceptingNative 1 2
      3 4 :=
  ⟨by decide, by decide, by decide,
    C4_request_carries_accumulated_state _ acceptingNative 1 2 3 4 (by decide) (by decide)
      (by decide)⟩

/-! ## C5 and C6: descriptor-pool sizing -/

theorem createDescriptorPool_calls (self : descriptorPoolHelper) (native : Native)
    (dev : VkDevice) :
    (self.createDescriptorPool native dev).calls =
      [NativeCall.vkCreateDescriptorPool dev self.descriptorPoolInfo 0] :=
  finish_calls _ _ _ _

/-- C5. For a helper holding `N < 2 ^ 31` sizing entries, `createDescriptorPool` presents
one `vkCreateDescriptorPool` call whose request has `maxSets = 2 * N`,
`poolSizeCount = N` and the accumulated entries, in order, as pool sizes; replacing the
descriptor counts of the entries by any other counts leaves `maxSets` as it is. -/
theorem C5_maxSets_is_twice_the_entry_count (self : descriptorPoolHelper) (native : Native)
    (dev : VkDevice) (hN : self.typeCounts_.length < 2 ^ 31) :
    ∃ info : VkDescriptorPoolCreateInfo,
      (self.createDescriptorPool native dev).calls =
        [NativeCall.vkCreateDescriptorPool dev info 0] ∧
      info.maxSets = 2 * self.typeCounts_.length ∧
      info.poolSizeCount = self.typeCounts_.length ∧
      info.pPoolSizes = self.typeCounts_ ∧
      ∀ counts : VkDescriptorPoolSize → Nat,
        (withCounts self counts).descriptorPoolInfo.maxSets = info.maxSets := by
  have h32 : self.typeCounts_.length < 2 ^ 32 := by omega
  refine ⟨_, createDescriptorPool_calls _ _ _, ?_, toUint32_of_lt h32, rfl, ?_⟩
  · show (toUint32 self.typeCounts_.length * 2) % 2 ^ 32 = 2 * self.typeCounts_.length
    rw [toUint32_of_lt h32]
    omega
  · intro counts
    show (toUint32 (withCounts self counts).typeCounts_.length * 2) % 2 ^ 32 =
      (toUint32 self.typeCounts_.length * 2) % 2 ^ 32
    rw [withCounts, List.length_map]

/-- C5 at three entries of three distinct kinds (counts 10, 20, 30): `maxSets = 6`, not the
sum 60. -/
theorem C5_maxSets_is_twice_the_entry_count_witness :
    sampleSizing.typeCounts_.length < 2 ^ 31 ∧
    ∃ info : VkDescriptorPoolCreateInfo,
      (sampleSizing.createDescriptorPool acceptingNative 1).calls =
        [NativeCall.vkCreateDescriptorPool 1 info 0] ∧
      info.maxSets = 6 ∧
      info.poolSizeCount = 3 ∧
      info.pPoolSizes =
        [{ type := VK_DESCRIPTOR_TYPE_SAMPLER, descriptorCount := 10 },
         { type := VK_DESCRIPTOR_TYPE_COMBINED_IMAGE_SAMPLER, descriptorCount := 20 },
         { type := VK_DESCRIPTOR_TYPE_UNIFORM_BUFFER, descriptorCount := 30 }] ∧
      ∀ counts : VkDescriptorPoolSize → Nat,
        (withCounts sampleSizing counts).descriptorPoolInfo.maxSets = info.maxSets :=
  ⟨by decide, C5_maxSets_is_twice_the_entry_count sampleSizing acceptingNative 1 (by decide)⟩

/-- C6. On every helper state, `descriptors(kind, count)` appends exactly the entry
`(kind, count)` at the end of the sizing list, keeps every existing entry (and `info_`)
as it is, also when an entry of the same kind is present; `descriptors(kindA, 3)` followed
by `descriptors(kindA, 5)` on an empty helper gives `[(kindA, 3), (kindA, 5)]`, which is
not `[(kindA, 8)]`. -/
theorem C6_descriptors_appends_without_merging (self : descriptorPoolHelper)
    (kind : VkDescriptorType) (count : Nat) :
    AppendsOne self.typeCounts_ (self.descriptors kind count).typeCounts_
      { type := kind, descriptorCount := count } ∧
    (self.descriptors kind count).info_ = self.info_ ∧
    ∀ (maxSets : Nat) (kindA : VkDescriptorType),
      (((descriptorPoolHelper.new maxSets).descriptors kindA 3).descriptors kindA 5).typeCounts_ =
        [{ type := kindA, descriptorCount := 3 }, { type := kindA, descriptorCount := 5 }] ∧
      (((descriptorPoolHelper.new maxSets).descriptors kindA 3).descriptors kindA 5).typeCounts_ ≠
        [{ type := kindA, descriptorCount := 8 }] := by
  refine ⟨appendsOne_append _ _, rfl, ?_⟩
  intro maxSets kindA
  refine ⟨rfl, ?_⟩
  simp [descriptorPoolHelper.descriptors, descriptorPoolHelper.new]

/-! ## C7: the descriptor-set-layout request -/

theorem createDescriptorSetLayout_calls (self : pipelineCreateHelper) (native : Native)
    (device : VkDevice) :
    (self.createDescriptorSetLayout native device).calls =
      [NativeCall.vkCreateDescriptorSetLayout device self.descriptorLayout_ 0] :=
  finish_calls _ _ _ _

theorem length_passedLayoutBinding (calls : List AccumCall) :
    (calls.filterMap AccumCall.passedLayoutBinding).length =
      calls.countP (fun c => c.kind = AccumKind.layoutBinding) := by
  induction calls with
  | nil => rfl
  | cons c cs ih =>
    cases c <;>
      simp [List.filterMap_cons, List.countP_cons, AccumCall.passedLayoutBinding,
        AccumCall.kind, ih]

theorem fresh_layoutBindings (calls : List AccumCall) :
    (runAll calls pipelineCreateHelper.new).layoutBindings_ =
      calls.filterMap AccumCall.passedLayoutBinding := by
  rw [runAll_layoutBindings]
  exact List.nil_append _

theorem bindingCount_of_presents (calls : List AccumCall) (native : Native) (device : VkDevice)
    (h : PresentsLayoutBindingCalls calls native device) :
    toUint32 (calls.countP (fun c => c.kind = AccumKind.layoutBinding)) =
      calls.countP (fun c => c.kind = AccumKind.layoutBinding) := by
  obtain ⟨info, hcalls, hcount, -⟩ := h
  rw [createDescriptorSetLayout_calls] at hcalls
  simp only [List.cons.injEq, NativeCall.vkCreateDescriptorSetLayout.injEq, and_true,
    true_and] at hcalls
  subst hcalls
  have hc : toUint32 (runAll calls pipelineCreateHelper.new).layoutBindings_.length =
      calls.countP (fun c => c.kind = AccumKind.layoutBinding) := hcount
  rw [fresh_layoutBindings, length_passedLayoutBinding] at hc
  exact hc

theorem oversizedLayoutCalls_count :
    oversizedLayoutCalls.countP (fun c => c.kind = AccumKind.layoutBinding) = 2 ^ 32 := by
  unfold oversizedLayoutCalls
  rw [← length_passedLayoutBinding,
    filterMap_replicate_of_some AccumCall.passedLayoutBinding
      (AccumCall.uniformBuffer VK_SHADER_STAGE_VERTEX_BIT 0)
      { binding := 0, descriptorType := VK_DESCRIPTOR_TYPE_UNIFORM_BUFFER,
        descriptorCount := 1, stageFlags := VK_SHADER_STAGE_VERTEX_BIT } rfl,
    List.length_replicate]

/-- C7, as stated, fails after `2 ^ 32` `uniformBuffer` calls: `bindingCount` is the
`uint32_t` cast of the number of bindings, which is `0` there. -/
theorem C7_bindingCount_wraps_at_2_pow_32 :
    ¬ PresentsLayoutBindingCalls oversizedLayoutCalls acceptingNative 1 := by
  intro h
  have hc := bindingCount_of_presents _ _ _ h
  rw [oversizedLayoutCalls_count] at hc
  simp [toUint32] at hc

/-- C7 (amended). For a fresh builder that received any accumulation calls of which fewer
than `2 ^ 32` are `layoutBinding` / `uniformBuffer` / `combinedImageSampler` calls,
`createDescriptorSetLayout` presents one `vkCreateDescriptorSetLayout` call whose
`bindingCount` is the number of those calls and whose binding list is what they passed
(slot, descriptor kind, stage mask), in call order. -/
theorem C7_layout_request_lists_the_bindings (calls : List AccumCall) (native : Native)
    (device : VkDevice)
    (hlt : calls.countP (fun c => c.kind = AccumKind.layoutBinding) < 2 ^ 32) :
    PresentsLayoutBindingCalls calls native device := by
  refine ⟨_, createDescriptorSetLayout_calls _ _ _, ?_, fresh_layoutBindings calls⟩
  show toUint32 (runAll calls pipelineCreateHelper.new).layoutBindings_.length = _
  rw [fresh_layoutBindings, length_passedLayoutBinding]
  exact toUint32_of_lt hlt

/-- C7 (amended) at a fresh builder after `uniformBuffer(vertex stage, 0)`: the request has
`bindingCount = 1` and the single binding of slot 0, kind uniform-buffer, stage mask
vertex. -/
theorem C7_layout_request_lists_the_bindings_witness :
    [AccumCall.uniformBuffer VK_SHADER_STAGE_VERTEX_BIT 0].countP
      (fun c => c.kind = AccumKind.layoutBinding) < 2 ^ 32 ∧
    PresentsLayoutBindingCalls [AccumCall.uniformBuffer VK_SHADER_STAGE_VERTEX_BIT 0]
      acceptingNative 1 ∧
    ((pipelineCreateHelper.new.uniformBuffer VK_SHADER_STAGE_VERTEX_BIT
        0).createDescriptorSetLayout acceptingNative 1).calls =
      [NativeCall.vkCreateDescriptorSetLayout 1
        { sType := VK_STRUCTURE_TYPE_DESCRIPTOR_SET_LAYOUT_CREATE_INFO
          bindingCount := 1
          pBindings :=
            [{ binding := 0, descriptorType := VK_DESCRIPTOR_TYPE_UNIFORM_BUFFER,
               descriptorCount := 1, stageFlags := VK_SHADER_STAGE_VERTEX_BIT }] } 0] :=
  ⟨by decide,
    C7_layout_request_lists_the_bindings
      [AccumCall.uniformBuffer VK_SHADER_STAGE_VERTEX_BIT 0] acceptingNative 1 (by decide),
    by decide⟩

/-! ## C8: failure follows the native return code -/

theorem finish_propagates {σ : Type} (native : Native) (self : σ) (call : NativeCall)
    (line : Nat) : PropagatesNativeResult native (finish native self call line) := by
  refine ⟨call, finish_calls _ _ _ _, ?_⟩
  simp only [finish, VK_SUCCESS]
  by_cases herr : (native call).err = 0
  · rw [if_neg (by simpa using herr)]
    simp [herr]
  · rw [if_pos herr]
    simp [herr]

/-- C8. Each of `createGraphicsPipeline`, `createDescriptorSetLayout`,
`createPipelineLayout` and `createDescriptorPool` issues one native call and fails if and
only if that call returns a non-zero code; the exception then carries exactly that code and
no handle is returned; when the call returns zero the operation returns the handle the
driver stored and throws nothing. -/
theorem C8_creation_fails_iff_native_code_nonzero (native : Native) :
    (∀ (self : pipelineCreateHelper) device renderPass pipelineLayout pipelineCache,
      PropagatesNativeResult native
        (self.createGraphicsPipeline native device renderPass pipelineLayout pipelineCache)) ∧
    (∀ (self : pipelineCreateHelper) device,
      PropagatesNativeResult native (self.createDescriptorSetLayout native device)) ∧
    (∀ (self : pipelineCreateHelper) device descriptorSetLayout,
      PropagatesNativeResult native
        (self.createPipelineLayout native device descriptorSetLayout)) ∧
    (∀ (self : descriptorPoolHelper) dev,
      PropagatesNativeResult native (self.createDescriptorPool native dev)) :=
  ⟨fun _ _ _ _ _ => finish_propagates _ _ _ _, fun _ _ => finish_propagates _ _ _ _,
    fun _ _ _ => finish_propagates _ _ _ _, fun _ _ => finish_propagates _ _ _ _⟩

/-! ## C9: retrying `createGraphicsPipeline` after a failure -/

/-- C9 (the code at the failing input). On the builder reached by `sampleCalls`, with a
driver that fails with code `-2`: the first `createGraphicsPipeline` throws the error with
code `-2` and presents the dynamic states `[viewport, scissor]`; the retry on the builder
left behind, with the same arguments, presents a different request, whose dynamic states
are `[viewport, scissor, viewport, scissor]` with `dynamicStateCount = 4`. -/
theorem C9_retry_presents_a_different_request :
    ((runAll sampleCalls pipelineCreateHelper.new).createGraphicsPipeline failingNative 1 2 3
      4).result = Except.error { code := -2, file := thisFile, line := 255 } ∧
    ∃ failed retry : VkGraphicsPipelineCreateInfo,
      ((runAll sampleCalls pipelineCreateHelper.new).createGraphicsPipeline failingNative 1 2
        3 4).calls = [NativeCall.vkCreateGraphicsPipelines 1 4 1 [failed] 0] ∧
      (((runAll sampleCalls pipelineCreateHelper.new).createGraphicsPipeline failingNative 1
        2 3 4).self.createGraphicsPipeline failingNative 1 2 3 4).calls =
        [NativeCall.vkCreateGraphicsPipelines 1 4 1 [retry] 0] ∧
      failed.pDynamicState.dynamicStateCount = 2 ∧
      failed.pDynamicState.pDynamicStates =
        [VK_DYNAMIC_STATE_VIEWPORT, VK_DYNAMIC_STATE_SCISSOR] ∧
      retry.pDynamicState.dynamicStateCount = 4 ∧
      retry.pDynamicState.pDynamicStates =
        [VK_DYNAMIC_STATE_VIEWPORT, VK_DYNAMIC_STATE_SCISSOR, VK_DYNAMIC_STATE_VIEWPORT,
          VK_DYNAMIC_STATE_SCISSOR] ∧
      retry ≠ failed :=
  ⟨rfl, _, _, rfl, rfl, rfl, rfl, rfl, rfl, by decide⟩

/-! ## C10: accumulation calls of different kinds commute -/

theorem run_comm (self : pipelineCreateHelper) (c₁ c₂ : AccumCall)
    (h : c₁.kind ≠ c₂.kind) : c₂.run (c₁.run self) = c₁.run (c₂.run self) := by
  cases c₁ <;> cases c₂ <;> first
    | exact absurd rfl h
    | rfl

/-- C10. On every builder state, two accumulation calls of different kinds (among `attrib`,
`binding`, `layoutBinding` with its shorthands, `shader` and `topology`) give the same
builder state in either order, and therefore the same outcome (native calls issued, builder
left behind, result) of `createDescriptorSetLayout` and of `createGraphicsPipeline`. -/
theorem C10_calls_of_different_kinds_commute (self : pipelineCreateHelper)
    (c₁ c₂ : AccumCall) (h : c₁.kind ≠ c₂.kind) :
    c₂.run (c₁.run self) = c₁.run (c₂.run self) ∧
    (∀ native device,
      (c₂.run (c₁.run self)).createDescriptorSetLayout native device =
        (c₁.run (c₂.run self)).createDescriptorSetLayout native device) ∧
    (∀ native device renderPass pipelineLayout pipelineCache,
      (c₂.run (c₁.run self)).createGraphicsPipeline native device renderPass pipelineLayout
          pipelineCache =
        (c₁.run (c₂.run self)).createGraphicsPipeline native device renderPass pipelineLayout
          pipelineCache) := by
  have hcomm := run_comm self c₁ c₂ h
  refine ⟨hcomm, ?_, ?_⟩
  · intro native device
    rw [hcomm]
  · intro native device renderPass pipelineLayout pipelineCache
    rw [hcomm]

/-- C10 at `attrib(1, 0, F, 12)` and `binding(0, 32)` on a fresh builder. -/
theorem C10_calls_of_different_kinds_commute_witness :
    (AccumCall.attrib 1 0 106 12).kind ≠
      (AccumCall.binding 0 32 VK_VERTEX_INPUT_RATE_VERTEX).kind ∧
    ((pipelineCreateHelper.new.attrib 1 0 106 12).binding 0 32 VK_VERTEX_INPUT_RATE_VERTEX =
      (pipelineCreateHelper.new.binding 0 32 VK_VERTEX_INPUT_RATE_VERTEX).attrib 1 0 106 12) ∧
    (∀ native device,
      ((pipelineCreateHelper.new.attrib 1 0 106 12).binding 0 32
          VK_VERTEX_INPUT_RATE_VERTEX).createDescriptorSetLayout native device =
        ((pipelineCreateHelper.new.binding 0 32 VK_VERTEX_INPUT_RATE_VERTEX).attrib 1 0 106
          12).createDescriptorSetLayout native device) ∧
    (∀ native device renderPass pipelineLayout pipelineCache,
      ((pipelineCreateHelper.new.attrib 1 0 106 12).binding 0 32
          VK_VERTEX_INPUT_RATE_VERTEX).createGraphicsPipeline native device renderPass
          pipelineLayout pipelineCache =
        ((pipelineCreateHelper.new.binding 0 32 VK_VERTEX_INPUT_RATE_VERTEX).attrib 1 0 106
          12).createGraphicsPipeline native device renderPass pipelineLayout pipelineCache) :=
  ⟨by decide,
    C10_calls_of_different_kinds_commute pipelineCreateHelper.new (AccumCall.attrib 1 0 106 12)
      (AccumCall.binding 0 32 VK_VERTEX_INPUT_RATE_VERTEX) (by decide)⟩

/-! ## C11: attributes are not checked against bindings -/

/-- C11. On every builder state `attrib(location, binding, format, offset)` returns the
builder with the attribute appended and `bindingDescriptions` unchanged, whether or not a
vertex binding with that index has been declared; a later `binding` call keeps the
attribute.  On a fresh builder, `attrib(1, 0, F, 12)` before any `binding(0, 32)` gives an
attribute list of length 1 and an empty binding list. -/
theorem C11_attrib_is_not_checked_against_bindings (self : pipelineCreateHelper)
    (location b : Nat) (format : VkFormat) (offset : Nat) :
    (self.attrib location b format offset).attributeDescriptions =
      self.attributeDescriptions ++
        [{ location := location, binding := b, format := format, offset := offset }] ∧
    (self.attrib location b format offset).bindingDescriptions = self.bindingDescriptions ∧
    (∀ b' stride rate,
      ((self.attrib location b format offset).binding b' stride rate).attributeDescriptions =
        self.attributeDescriptions ++
          [{ location := location, binding := b, format := format, offset := offset }]) ∧
    (∀ F : VkFormat,
      (pipelineCreateHelper.new.attrib 1 0 F 12).attributeDescriptions =
        [{ location := 1, binding := 0, format := F, offset := 12 }] ∧
      (pipelineCreateHelper.new.attrib 1 0 F 12).attributeDescriptions.length = 1 ∧
      (pipelineCreateHelper.new.attrib 1 0 F 12).bindingDescriptions = []) :=
  ⟨rfl, rfl, fun _ _ _ => rfl, fun _ => ⟨rfl, rfl, rfl⟩⟩

/-! ## C14: the pipeline-layout request -/

theorem createPipelineLayout_calls (self : pipelineCreateHelper) (native : Native)
    (device : VkDevice) (descriptorSetLayout : VkDescriptorSetLayout) :
    (self.createPipelineLayout native device descriptorSetLayout).calls =
      [NativeCall.vkCreatePipelineLayout device
        (pipelineCreateHelper.pipelineLayoutCreateInfo descriptorSetLayout) 0] :=
  finish_calls _ _ _ _

/-- C14. For every builder, device and descriptor-set-layout handle `h`,
`createPipelineLayout(device, h)` presents one `vkCreatePipelineLayout` call whose request
has `setLayoutCount = 1` and the single set layout `h`; any other builder presents the same
call; when the driver reports success the handle it stored is returned. -/
theorem C14_pipeline_layout_request_has_the_single_set_layout (self : pipelineCreateHelper)
    (native : Native) (device : VkDevice) (h : VkDescriptorSetLayout) :
    ∃ info : VkPipelineLayoutCreateInfo,
      (self.createPipelineLayout native device h).calls =
        [NativeCall.vkCreatePipelineLayout device info 0] ∧
      info.setLayoutCount = 1 ∧
      info.pSetLayouts = [h] ∧
      (∀ other : pipelineCreateHelper,
        (other.createPipelineLayout native device h).calls =
          [NativeCall.vkCreatePipelineLayout device info 0] ∧
        (other.createPipelineLayout native device h).result =
          (self.createPipelineLayout native device h).result) ∧
      ((native (NativeCall.vkCreatePipelineLayout device info 0)).err = VK_SUCCESS →
        (self.createPipelineLayout native device h).result =
          Except.ok ((native (NativeCall.vkCreatePipelineLayout device info
            0)).written.getD VK_NULL_HANDLE)) := by
  refine ⟨_, createPipelineLayout_calls _ _ _ _, rfl, rfl, ?_, ?_⟩
  · intro other
    refine ⟨createPipelineLayout_calls _ _ _ _, ?_⟩
    simp only [pipelineCreateHelper.createPipelineLayout, finish]
    split <;> rfl
  · intro herr
    simp only [pipelineCreateHelper.createPipelineLayout, finish]
    rw [if_neg (by simpa [VK_SUCCESS] using herr)]

/-! ## C15: `createGraphicsPipeline` mutates the dynamic-state list -/

theorem resolveDefaults_dynamicStates (self : pipelineCreateHelper) (renderPass : VkRenderPass)
    (pipelineLayout : VkPipelineLayout) :
    (self.resolveDefaults.pipelineCreateInfo renderPass
      pipelineLayout).pDynamicState.pDynamicStates =
      self.dynamicStateEnables ++ [VK_DYNAMIC_STATE_VIEWPORT, VK_DYNAMIC_STATE_SCISSOR] := by
  simp [pipelineCreateHelper.pipelineCreateInfo, pipelineCreateHelper.dynamicStateView,
    pipelineCreateHelper.resolveDefaults]

theorem resolveDefaults_dynamicStateEnables (self : pipelineCreateHelper) :
    self.resolveDefaults.dynamicStateEnables =
      self.dynamicStateEnables ++ [VK_DYNAMIC_STATE_VIEWPORT, VK_DYNAMIC_STATE_SCISSOR] := by
  simp [pipelineCreateHelper.resolveDefaults]

/-- C15. For every builder and all arguments, whatever the driver answers: the builder left
by `createGraphicsPipeline` has a dynamic-state list two entries longer (viewport and
scissor appended) while `bindingDescriptions`, `attributeDescriptions`, `layoutBindings_`,
`shaderStages_` and the topology are unchanged, and a second `createGraphicsPipeline` with
the same arguments presents a native call different from the one the first presented. -/
theorem C15_createGraphicsPipeline_is_not_idempotent (self : pipelineCreateHelper)
    (native₁ native₂ : Native) (device : VkDevice) (renderPass : VkRenderPass)
    (pipelineLayout : VkPipelineLayout) (pipelineCache : VkPipelineCache) :
    ((self.createGraphicsPipeline native₁ device renderPass pipelineLayout
        pipelineCache).self.createGraphicsPipeline native₂ device renderPass pipelineLayout
        pipelineCache).calls ≠
      (self.createGraphicsPipeline native₁ device renderPass pipelineLayout
        pipelineCache).calls ∧
    (self.createGraphicsPipeline native₁ device renderPass pipelineLayout
        pipelineCache).self.dynamicStateEnables =
      self.dynamicStateEnables ++ [VK_DYNAMIC_STATE_VIEWPORT, VK_DYNAMIC_STATE_SCISSOR] ∧
    (self.createGraphicsPipeline native₁ device renderPass pipelineLayout
        pipelineCache).self.dynamicStateEnables.length =
      self.dynamicStateEnables.length + 2 ∧
    (self.createGraphicsPipeline native₁ device renderPass pipelineLayout
        pipelineCache).self.bindingDescriptions = self.bindingDescriptions ∧
    (self.createGraphicsPipeline native₁ device renderPass pipelineLayout
        pipelineCache).self.attributeDescriptions = self.attributeDescriptions ∧
    (self.createGraphicsPipeline native₁ device renderPass pipelineLayout
        pipelineCache).self.layoutBindings_ = self.layoutBindings_ ∧
    (self.createGraphicsPipeline native₁ device renderPass pipelineLayout
        pipelineCache).self.shaderStages_ = self.shaderStages_ ∧
    (self.createGraphicsPipeline native₁ device renderPass pipelineLayout
        pipelineCache).self.inputAssemblyState.topology =
      self.inputAssemblyState.topology := by
  rw [createGraphicsPipeline_self]
  refine ⟨?_, resolveDefaults_dynamicStateEnables self, ?_, rfl, rfl, rfl, rfl, rfl⟩
  · rw [createGraphicsPipeline_calls, createGraphicsPipeline_calls]
    intro heq
    simp only [List.cons.injEq, NativeCall.vkCreateGraphicsPipelines.injEq, and_true,
      true_and] at heq
    have hdyn := congrArg (fun i => i.pDynamicState.pDynamicStates.length) heq
    simp only [resolveDefaults_dynamicStates, resolveDefaults_dynamicStateEnables,
      List.length_append, List.length_cons, List.length_nil] at hdyn
    omega
  · rw [resolveDefaults_dynamicStateEnables]
    simp

/-! ## C16: `topology` is a targeted override -/

/-- C16. For every builder state and value `v`: the request of `createGraphicsPipeline`
after `topology(v)` is the request without that call with the topology field set to `v`
(every other field the same); `topology` changes no accumulated sequence; and
`topology(v)` after `topology(u)` gives the same state as `topology(v)` alone. -/
theorem C16_topology_overrides_only_the_topology (self : pipelineCreateHelper)
    (v : VkPrimitiveTopology) :
    (∀ (native : Native) device renderPass pipelineLayout pipelineCache,
      ∃ info without : VkGraphicsPipelineCreateInfo,
        ((self.topology v).createGraphicsPipeline native device renderPass pipelineLayout
          pipelineCache).calls =
          [NativeCall.vkCreateGraphicsPipelines device pipelineCache 1 [info] 0] ∧
        (self.createGraphicsPipeline native device renderPass pipelineLayout
          pipelineCache).calls =
          [NativeCall.vkCreateGraphicsPipelines device pipelineCache 1 [without] 0] ∧
        info.pInputAssemblyState.topology = v ∧
        info = { without with
          pInputAssemblyState := { without.pInputAssemblyState with topology := v } }) ∧
    (self.topology v).bindingDescriptions = self.bindingDescriptions ∧
    (self.topology v).attributeDescriptions = self.attributeDescriptions ∧
    (self.topology v).layoutBindings_ = self.layoutBindings_ ∧
    (self.topology v).shaderStages_ = self.shaderStages_ ∧
    (self.topology v).dynamicStateEnables = self.dynamicStateEnables ∧
    (∀ u : VkPrimitiveTopology, (self.topology u).topology v = self.topology v) := by
  refine ⟨?_, rfl, rfl, rfl, rfl, rfl, fun _ => rfl⟩
  intro native device renderPass pipelineLayout pipelineCache
  exact ⟨_, _, createGraphicsPipeline_calls _ _ _ _ _ _, createGraphicsPipeline_calls _ _ _ _ _ _,
    rfl, rfl⟩

/-! ## C17: the read-only creation operations -/

/-- C17. Whatever the driver answers (success or failure), `createDescriptorPool` leaves the
`descriptorPoolHelper` as it was and `createDescriptorSetLayout` leaves the
`pipelineCreateHelper` as it was, so a second call on the same accumulator presents the
same native call as the first. -/
theorem C17_pool_and_layout_creation_do_not_mutate (native₁ native₂ : Native) :
    (∀ (self : descriptorPoolHelper) (dev : VkDevice),
      (self.createDescriptorPool native₁ dev).self = self ∧
      ((self.createDescriptorPool native₁ dev).self.createDescriptorPool native₂ dev).calls =
        (self.createDescriptorPool native₁ dev).calls) ∧
    (∀ (self : pipelineCreateHelper) (device : VkDevice),
      (self.createDescriptorSetLayout native₁ device).self = self ∧
      ((self.createDescriptorSetLayout native₁ device).self.createDescriptorSetLayout native₂
          device).calls =
        (self.createDescriptorSetLayout native₁ device).calls) := by
  constructor
  · intro self dev
    have hself : (self.createDescriptorPool native₁ dev).self = self := finish_self _ _ _ _
    refine ⟨hself, ?_⟩
    rw [hself, createDescriptorPool_calls, createDescriptorPool_calls]
  · intro self device
    have hself : (self.createDescriptorSetLayout native₁ device).self = self :=
      finish_self _ _ _ _
    refine ⟨hself, ?_⟩
    rw [hself, createDescriptorSetLayout_calls, createDescriptorSetLayout_calls]

/-! ## C19: the shorthand methods -/

/-- C19. On every state `uniformBuffer(stages, b)` is `layoutBinding(uniform-buffer,
stages, b)` and `combinedImageSampler(stages, b)` is `layoutBinding(combined-image-sampler,
stages, b)`; `samplers(n)`, `combinedImageSamplers(n)` and `uniformBuffers(n)` are
`descriptors` with the kinds sampler, combined-image-sampler and uniform-buffer; the binding
`layoutBinding` records has `descriptorCount = 1` and a null `pImmutableSamplers`, and so
has every binding of a builder filled by accumulation calls from a fresh one. -/
theorem C19_shorthands_are_their_general_forms :
    (∀ (self : pipelineCreateHelper) (stages : VkShaderStageFlags) (b : Nat),
      self.uniformBuffer stages b =
        self.layoutBinding VK_DESCRIPTOR_TYPE_UNIFORM_BUFFER stages b ∧
      self.combinedImageSampler stages b =
        self.layoutBinding VK_DESCRIPTOR_TYPE_COMBINED_IMAGE_SAMPLER stages b) ∧
    (∀ (self : descriptorPoolHelper) (n : Nat),
      self.samplers n = self.descriptors VK_DESCRIPTOR_TYPE_SAMPLER n ∧
      self.combinedImageSamplers n =
        self.descriptors VK_DESCRIPTOR_TYPE_COMBINED_IMAGE_SAMPLER n ∧
      self.uniformBuffers n = self.descriptors VK_DESCRIPTOR_TYPE_UNIFORM_BUFFER n) ∧
    (∀ (self : pipelineCreateHelper) (kind : VkDescriptorType) (stages : VkShaderStageFlags)
        (b : Nat),
      ∃ recorded : VkDescriptorSetLayoutBinding,
        (self.layoutBinding kind stages b).layoutBindings_ =
          self.layoutBindings_ ++ [recorded] ∧
        recorded.descriptorCount = 1 ∧ recorded.pImmutableSamplers = 0) ∧
    (∀ (calls : List AccumCall),
      ∀ recorded ∈ (runAll calls pipelineCreateHelper.new).layoutBindings_,
        recorded.descriptorCount = 1 ∧ recorded.pImmutableSamplers = 0) := by
  refine ⟨fun _ _ _ => ⟨rfl, rfl⟩, fun _ _ => ⟨rfl, rfl, rfl⟩,
    fun _ _ _ _ => ⟨_, rfl, rfl, rfl⟩, ?_⟩
  intro calls recorded hmem
  rw [fresh_layoutBindings, List.mem_filterMap] at hmem
  obtain ⟨c, -, hc⟩ := hmem
  cases c <;> simp [AccumCall.passedLayoutBinding] at hc <;> subst hc <;> exact ⟨rfl, rfl⟩

/-! ## C18: the constructor argument of `descriptorPoolHelper` -/

theorem runSizing_cons (c : SizingCall) (calls : List SizingCall)
    (self : descriptorPoolHelper) : runSizing (c :: calls) self = runSizing calls (c.run self) :=
  rfl

theorem run_typeCounts (c : SizingCall) (self : descriptorPoolHelper) :
    (c.run self).typeCounts_ = self.typeCounts_ ++ [c.passed] := by
  cases c <;> rfl

theorem runSizing_typeCounts (calls : List SizingCall) (self : descriptorPoolHelper) :
    (runSizing calls self).typeCounts_ = self.typeCounts_ ++ calls.map SizingCall.passed := by
  induction calls generalizing self with
  | nil => simp [runSizing]
  | cons c cs ih => rw [runSizing_cons, ih, run_typeCounts, List.map_cons, List.append_assoc]; rfl

theorem fresh_typeCounts (calls : List SizingCall) (maxSets : Nat) :
    (runSizing calls (descriptorPoolHelper.new maxSets)).typeCounts_ =
      calls.map SizingCall.passed := by
  rw [runSizing_typeCounts]
  exact List.nil_append _

theorem descriptorPoolInfo_of_typeCounts (a b : descriptorPoolHelper)
    (h : a.typeCounts_ = b.typeCounts_) : a.descriptorPoolInfo = b.descriptorPoolInfo := by
  simp only [descriptorPoolHelper.descriptorPoolInfo, h]

theorem fresh_maxSets (calls : List SizingCall) (maxSets : Nat) :
    (runSizing calls (descriptorPoolHelper.new maxSets)).descriptorPoolInfo.maxSets =
      (toUint32 calls.length * 2) % 2 ^ 32 := by
  show (toUint32 (runSizing calls (descriptorPoolHelper.new maxSets)).typeCounts_.length * 2) %
    2 ^ 32 = _
  rw [fresh_typeCounts, List.length_map]

theorem oversizedSizingCalls_length : oversizedSizingCalls.length = 2 ^ 31 :=
  List.length_replicate _ _

/-- C18, as stated, fails after `2 ^ 31` sizing calls: the two requests are the same, but
their `maxSets` is the 32-bit product, `0`, and not twice the number of entries. -/
theorem C18_maxSets_wraps_at_2_pow_31 :
    ¬ ConstructorArgWithoutEffect 1 2 oversizedSizingCalls acceptingNative 1 := by
  intro h
  obtain ⟨info, hcalls, -, hmax⟩ := h
  rw [createDescriptorPool_calls] at hcalls
  simp only [List.cons.injEq, NativeCall.vkCreateDescriptorPool.injEq, and_true,
    true_and] at hcalls
  subst hcalls
  rw [fresh_maxSets, oversizedSizingCalls_length] at hmax
  simp [toUint32] at hmax

/-- C18 (amended). Two helpers constructed with any two `maxSets` arguments and then given
the same sequence of sizing calls present the same `vkCreateDescriptorPool` call and have
the same result; the request's `maxSets` is the 32-bit product of the number of entries
and 2, which is twice the number of entries when there are fewer than `2 ^ 31` of them. -/
theorem C18_constructor_maxSets_has_no_effect (maxSets₁ maxSets₂ : Nat)
    (calls : List SizingCall) (native : Native) (dev : VkDevice) :
    ∃ info : VkDescriptorPoolCreateInfo,
      ((runSizing calls (descriptorPoolHelper.new maxSets₁)).createDescriptorPool native
        dev).calls = [NativeCall.vkCreateDescriptorPool dev info 0] ∧
      ((runSizing calls (descriptorPoolHelper.new maxSets₂)).createDescriptorPool native
        dev).calls = [NativeCall.vkCreateDescriptorPool dev info 0] ∧
      ((runSizing calls (descriptorPoolHelper.new maxSets₁)).createDescriptorPool native
        dev).result =
        ((runSizing calls (descriptorPoolHelper.new maxSets₂)).createDescriptorPool native
          dev).result ∧
      info.maxSets = (toUint32 calls.length * 2) % 2 ^ 32 ∧
      (calls.length < 2 ^ 31 → info.maxSets = 2 * calls.length) := by
  have hinfo : (runSizing calls (descriptorPoolHelper.new maxSets₂)).descriptorPoolInfo =
      (runSizing calls (descriptorPoolHelper.new maxSets₁)).descriptorPoolInfo :=
    descriptorPoolInfo_of_typeCounts _ _ (by rw [fresh_typeCounts, fresh_typeCounts])
  refine ⟨_, createDescriptorPool_calls _ _ _, ?_, ?_, fresh_maxSets calls maxSets₁, ?_⟩
  · rw [createDescriptorPool_calls, hinfo]
  · simp only [descriptorPoolHelper.createDescriptorPool, finish, hinfo]
    split <;> rfl
  · intro hlt
    rw [fresh_maxSets, toUint32_of_lt (by omega)]
    omega

/-- C18 (amended) at the constructor arguments 1 and 99 and the calls `samplers(10)`,
`combinedImageSamplers(20)`, `uniformBuffers(30)`: both requests have `maxSets = 6`. -/
theorem C18_constructor_maxSets_has_no_effect_witness :
    ∃ info : VkDescriptorPoolCreateInfo,
      ((runSizing [SizingCall.samplers 10, SizingCall.combinedImageSamplers 20,
          SizingCall.uniformBuffers 30] (descriptorPoolHelper.new 1)).createDescriptorPool
        acceptingNative 1).calls = [NativeCall.vkCreateDescriptorPool 1 info 0] ∧
      ((runSizing [SizingCall.samplers 10, SizingCall.combinedImageSamplers 20,
          SizingCall.uniformBuffers 30] (descriptorPoolHelper.new 99)).createDescriptorPool
        acceptingNative 1).calls = [NativeCall.vkCreateDescriptorPool 1 info 0] ∧
      info.maxSets = 6 := by
  obtain ⟨info, h₁, h₂, -, -, h₅⟩ :=
    C18_constructor_maxSets_has_no_effect 1 99
      [SizingCall.samplers 10, SizingCall.combinedImageSamplers 20,
        SizingCall.uniformBuffers 30] acceptingNative 1
  exact ⟨info, h₁, h₂, h₅ (by decide)⟩

/-! ## C12: exactly-once destruction -/

theorem destructor_of_owner (cls : ResourceClass) (dev : VkDevice) (value : Nat) :
    ((resource.construct dev).set value true).destructor cls = [cls.destroyCall dev value] := by
  cases cls <;> rfl

theorem finish_ok {σ : Type} (native : Native) (self : σ) (call : NativeCall) (line : Nat)
    (h : (native call).err = VK_SUCCESS) :
    finish native self call line =
      { self := self, calls := [call]
        result := Except.ok ((native call).written.getD VK_NULL_HANDLE) } := by
  simp only [finish]
  rw [if_neg (by simpa [VK_SUCCESS] using h)]

theorem finish_error {σ : Type} (native : Native) (self : σ) (call : NativeCall) (line : Nat)
    (h : (native call).err ≠ VK_SUCCESS) :
    finish native self call line =
      { self := self, calls := [call]
        result := Except.error ⟨(native call).err, thisFile, line⟩ } := by
  simp only [finish]
  rw [if_pos (by simpa [VK_SUCCESS] using h)]

theorem adopts_of_cases (cls : ResourceClass) (native : Native) (dev : VkDevice) (init : Nat)
    (c : Constructed) (call : NativeCall) (line : Nat)
    (hok : (native call).err = VK_SUCCESS →
      c = { calls := [call], destroyed := []
            result := Except.ok
              ((resource.construct dev).set ((native call).written.getD init) true) })
    (herror : (native call).err ≠ VK_SUCCESS →
      c = { calls := [call], destroyed := []
            result := Except.error ⟨(native call).err, thisFile, line⟩ }) :
    AdoptsAndDestroysOnce cls native dev init c := by
  refine ⟨call, ?_, ?_, ?_⟩
  · by_cases h : (native call).err = VK_SUCCESS
    · rw [hok h]
    · rw [herror h]
  · intro h
    rw [hok h]
    exact ⟨_, rfl, rfl, rfl, rfl, rfl, destructor_of_owner _ _ _⟩
  · intro h
    rw [herror h]
    exact ⟨⟨_, rfl, rfl⟩, rfl⟩

theorem descriptorPool_new_adopts (native : Native) (dev : VkDevice)
    (layout : descriptorPoolHelper) :
    AdoptsAndDestroysOnce ResourceClass.descriptorPool native dev VK_NULL_HANDLE
      (descriptorPool.new native dev layout) := by
  apply adopts_of_cases _ _ _ _ _
    (NativeCall.vkCreateDescriptorPool dev layout.descriptorPoolInfo 0) 59
  · intro h
    simp only [descriptorPool.new, descriptorPoolHelper.createDescriptorPool,
      finish_ok native _ _ _ h]
  · intro h
    simp only [descriptorPool.new, descriptorPoolHelper.createDescriptorPool,
      finish_error native _ _ _ h]
    rfl

theorem pipelineCache_new_adopts (native : Native) (dev : VkDevice) (cache₀ : VkPipelineCache) :
    AdoptsAndDestroysOnce ResourceClass.pipelineCache native dev cache₀
      (pipelineCache.new native dev cache₀) := by
  apply adopts_of_cases _ _ _ _ _
    (NativeCall.vkCreatePipelineCache dev pipelineCache.pipelineCacheCreateInfo 0) 90
  · intro h
    simp only [pipelineCache.new]
    rw [if_neg (by simpa [VK_SUCCESS] using h)]
  · intro h
    simp only [pipelineCache.new]
    rw [if_pos (by simpa [VK_SUCCESS] using h)]
    rfl

theorem pipeline_new_adopts (native : Native) (device : VkDevice) (renderPass : VkRenderPass)
    (pipelineCache pipeLayout : resource) (helper : pipelineCreateHelper) :
    AdoptsAndDestroysOnce ResourceClass.pipeline native device VK_NULL_HANDLE
      (pipeline.new native device renderPass pipelineCache pipeLayout helper).2 := by
  apply adopts_of_cases _ _ _ _ _
    (NativeCall.vkCreateGraphicsPipelines device pipelineCache.get 1
      [helper.resolveDefaults.pipelineCreateInfo renderPass pipeLayout.get] 0) 255
  · intro h
    simp only [pipeline.new, pipelineCreateHelper.createGraphicsPipeline,
      finish_ok native _ _ _ h]
  · intro h
    simp only [pipeline.new, pipelineCreateHelper.createGraphicsPipeline,
      finish_error native _ _ _ h]
    rfl

/-- C12. The creating constructors of `descriptorPool`, `pipelineCache` and `pipeline`
issue one native creation call; when it succeeds the resource adopts the handle the driver
returned with `owns = true` and the given device, and ending its lifetime issues exactly
one destroy call of its class, with that device and exactly that handle; ending the
lifetime of an empty resource (`construct(device)`, or any resource with `owns = false`)
issues no destroy call. -/
theorem C12_exactly_once_destruction (native : Native) (dev : VkDevice) :
    (∀ layout : descriptorPoolHelper,
      AdoptsAndDestroysOnce ResourceClass.descriptorPool native dev VK_NULL_HANDLE
        (descriptorPool.new native dev layout)) ∧
    (∀ cache₀ : VkPipelineCache,
      AdoptsAndDestroysOnce ResourceClass.pipelineCache native dev cache₀
        (pipelineCache.new native dev cache₀)) ∧
    (∀ (renderPass : VkRenderPass) (pipelineCache pipeLayout : resource)
        (helper : pipelineCreateHelper),
      AdoptsAndDestroysOnce ResourceClass.pipeline native dev VK_NULL_HANDLE
        (pipeline.new native dev renderPass pipelineCache pipeLayout helper).2) ∧
    (∀ cls : ResourceClass, (resource.construct dev).destructor cls = []) ∧
    (∀ (cls : ResourceClass) (r : resource), r.owns = false → r.destructor cls = []) := by
  refine ⟨descriptorPool_new_adopts native dev, pipelineCache_new_adopts native dev,
    pipeline_new_adopts native dev, fun _ => rfl, ?_⟩
  intro cls r hr
  simp [resource.destructor, hr]

/-- C12 with the accepting driver (handle 77) and device 1: each constructor yields the
owner of handle 77, whose destructor issues the single destroy call for `(1, 77)`. -/
theorem C12_exactly_once_destruction_witness :
    (∃ r : resource, (descriptorPool.new acceptingNative 1 sampleSizing).result = Except.ok r ∧
      r = { handle := 77, device := 1, owns := true } ∧
      r.destructor ResourceClass.descriptorPool =
        [DestroyCall.vkDestroyDescriptorPool 1 77 0]) ∧
    (∃ r : resource, (pipelineCache.new acceptingNative 1 0).result = Except.ok r ∧
      r = { handle := 77, device := 1, owns := true } ∧
      r.destructor ResourceClass.pipelineCache =
        [DestroyCall.vkDestroyPipelineCache 1 77 0]) ∧
    (∃ r : resource,
      (pipeline.new acceptingNative 1 2 { handle := 4 } { handle := 3 }
        (runAll sampleCalls pipelineCreateHelper.new)).2.result = Except.ok r ∧
      r = { handle := 77, device := 1, owns := true } ∧
      r.destructor ResourceClass.pipeline = [DestroyCall.vkDestroyPipeline 1 77 0]) ∧
    (resource.construct 1).destructor ResourceClass.pipeline = [] := by
  obtain ⟨h₁, h₂, h₃, h₄, -⟩ := C12_exactly_once_destruction acceptingNative 1
  refine ⟨?_, ?_, ?_, h₄ ResourceClass.pipeline⟩
  · obtain ⟨call, -, hok, -⟩ := h₁ sampleSizing
    obtain ⟨r, hr, -, hh, hd, ho, hdes⟩ := hok rfl
    refine ⟨r, hr, ?_, hdes⟩
    cases r
    simp only [resource.mk.injEq]
    exact ⟨hh, hd, ho⟩
  · obtain ⟨call, -, hok, -⟩ := h₂ 0
    obtain ⟨r, hr, -, hh, hd, ho, hdes⟩ := hok rfl
    refine ⟨r, hr, ?_, hdes⟩
    cases r
    simp only [resource.mk.injEq]
    exact ⟨hh, hd, ho⟩
  · obtain ⟨call, -, hok, -⟩ := h₃ 2 { handle := 4 } { handle := 3 }
      (runAll sampleCalls pipelineCreateHelper.new)
    obtain ⟨r, hr, -, hh, hd, ho, hdes⟩ := hok rfl
    refine ⟨r, hr, ?_, hdes⟩
    cases r
    simp only [resource.mk.injEq]
    exact ⟨hh, hd, ho⟩

/-! ## C13: ownership transfer on move -/

theorem transferred_of_fields (cls : ResourceClass) (A : resource) (hA : A.owns = true)
    (destroyed : List DestroyCall) :
    OwnershipTransferred cls A
      { destroyed := destroyed
        dst := { handle := A.handle, device := A.device, owns := A.owns }
        src := { A with handle := VK_NULL_HANDLE, owns := false } } := by
  refine ⟨rfl, rfl, hA, rfl, rfl, rfl, ?_, ?_⟩
  · cases cls <;> simp [resource.destructor, hA, ResourceClass.destroy, ResourceClass.destroyCall,
      descriptorPool.destroy, pipelineCache.destroy, pipelineLayout.destroy, pipeline.destroy,
      resource.dev, resource.get]
  · simp

/-- C13. Moving an owning resource `A`, by move construction or by move assignment into
any resource `B`, leaves `A` empty (`owns = false`, null handle) and makes the destination
the owner of the handle `A` held (with `A`'s device); ending `A`'s lifetime afterwards
issues no destroy call, source and destination never both have `owns = true`, and move
assignment first destroys what `B` owned (and nothing when `B` owned nothing). -/
theorem C13_move_transfers_ownership (cls : ResourceClass) (A B : resource)
    (hA : A.owns = true) :
    OwnershipTransferred cls A (resource.moveConstruct A) ∧
    (resource.moveConstruct A).destroyed = [] ∧
    OwnershipTransferred cls A (resource.moveAssign cls B A) ∧
    (resource.moveAssign cls B A).destroyed = B.destructor cls :=
  ⟨transferred_of_fields cls A hA [], rfl, transferred_of_fields cls A hA _, rfl⟩

/-- C13 at a `descriptorPool` owning handle 77 on device 1, moved into an empty resource:
the source ends empty, the destination owns 77, and destroying the source issues no
call. -/
theorem C13_move_transfers_ownership_witness :
    ({ handle := 77, device := 1, owns := true } : resource).owns = true ∧
    (OwnershipTransferred ResourceClass.descriptorPool { handle := 77, device := 1, owns := true }
        (resource.moveConstruct { handle := 77, device := 1, owns := true }) ∧
      (resource.moveConstruct { handle := 77, device := 1, owns := true }).destroyed = [] ∧
      OwnershipTransferred ResourceClass.descriptorPool
        { handle := 77, device := 1, owns := true }
        (resource.moveAssign ResourceClass.descriptorPool (resource.construct 1)
          { handle := 77, device := 1, owns := true }) ∧
      (resource.moveAssign ResourceClass.descriptorPool (resource.construct 1)
          { handle := 77, device := 1, owns := true }).destroyed =
        (resource.construct 1).destructor ResourceClass.descriptorPool) ∧
    (resource.moveAssign ResourceClass.descriptorPool (resource.construct 1)
        { handle := 77, device := 1, owns := true }) =
      { destroyed := []
        dst := { handle := 77, device := 1, owns := true }
        src := { handle := 0, device := 1, owns := false } } :=
  ⟨rfl,
    C13_move_transfers_ownership ResourceClass.descriptorPool
      { handle := 77, device := 1, owns := true } (resource.construct 1) rfl,
    by decide⟩

end vku
